import Mathlib

/-!
Shallow embedding of the Subversion client conflict resolver
(`subversion/libsvn_client/conflicts.c`) and of the ra_dav commit editor
(`subversion/libsvn_ra_dav/commit.c`), with theorems checking the
natural-language specification against the code.

Conventions:
* APR hash tables are modelled as association lists in insertion order
  (`svn_hash_sets` replaces an existing binding in place or appends).
* `svn_error_t *` results are modelled as `Option svn_error_kind`
  (`none` = `SVN_NO_ERROR`); functions that also mutate the conflict
  object return it explicitly together with the error.
* Calls into the working-copy store and into the repository-access (RA)
  layer — neither of which is part of this repository's sources — are
  modelled by explicit outcome/oracle records plus a trace of the calls
  that were issued.
* `svn_revnum_t` is modelled as `Int`; `SVN_INVALID_REVNUM` is `-1` and
  `SVN_IS_VALID_REVNUM rev` is `0 ≤ rev`, as in `svn_types.h`.
-/

namespace Svn

/-- `svn_node_kind_t` from `svn_types.h`. -/
inductive svn_node_kind where
  | none
  | file
  | dir
  | symlink
  | unknown
deriving DecidableEq, Repr, Fintype

/-- `svn_wc_operation_t` from `svn_wc.h`. -/
inductive svn_wc_operation where
  | none
  | update
  | switch
  | merge
deriving DecidableEq, Repr, Fintype

/-- `svn_wc_conflict_action_t` from `svn_wc.h`: the incoming change. -/
inductive svn_wc_conflict_action where
  | edit
  | add
  | delete
  | replace
deriving DecidableEq, Repr, Fintype

/-- `svn_wc_conflict_reason_t` from `svn_wc.h`: the local change. -/
inductive svn_wc_conflict_reason where
  | edited
  | obstructed
  | deleted
  | missing
  | unversioned
  | added
  | replaced
  | moved_away
  | moved_here
deriving DecidableEq, Repr, Fintype

/-- `svn_wc_conflict_kind_t` from `svn_wc.h`. -/
inductive svn_wc_conflict_kind where
  | text
  | property
  | tree
deriving DecidableEq, Repr, Fintype

/-- `svn_client_conflict_option_id_t` from `svn_client.h`. -/
inductive svn_client_conflict_option_id where
  | undefined
  | postpone
  | base_text
  | incoming_text
  | working_text
  | incoming_text_where_conflicted
  | working_text_where_conflicted
  | merged_text
  | unspecified
  | accept_current_wc_state
  | update_move_destination
  | update_any_moved_away_children
deriving DecidableEq, Repr, Fintype

/-- The error codes of `svn_error_t` values produced by the embedded code. -/
inductive svn_error_kind where
  | cancelled
  | assertion_fail
  | client_conflict_option_not_applicable
  | wc_conflict_resolver_failure
  | ra_mkactivity_failed
  | store_failure (code : Nat)
deriving DecidableEq, Repr

instance {ε α : Type} [DecidableEq ε] [DecidableEq α] :
    DecidableEq (Except ε α) := fun x y =>
  match x, y with
  | .ok a, .ok b => decidable_of_iff (a = b) (by simp)
  | .ok _, .error _ => isFalse (by simp)
  | .error _, .ok _ => isFalse (by simp)
  | .error e, .error f => decidable_of_iff (e = f) (by simp)

/-- `SVN_INVALID_REVNUM` from `svn_types.h`. -/
def SVN_INVALID_REVNUM : Int := -1

/-- `SVN_IS_VALID_REVNUM` from `svn_types.h`. -/
def SVN_IS_VALID_REVNUM (rev : Int) : Prop := 0 ≤ rev

instance : DecidablePred SVN_IS_VALID_REVNUM := fun rev =>
  inferInstanceAs (Decidable (0 ≤ rev))

/-- One of `src_left_version` / `src_right_version` of a conflict
descriptor: `svn_wc_conflict_version_t` from `svn_wc.h`. -/
structure svn_wc_conflict_version where
  repos_url : String
  repos_uuid : String
  path_in_repos : String
  peg_rev : Int
  node_kind : svn_node_kind
deriving DecidableEq, Repr

/-- The fields of `svn_wc_conflict_description2_t` (from `svn_wc.h`) that
`conflicts.c` reads. -/
structure svn_wc_conflict_description2 where
  kind : svn_wc_conflict_kind
  property_name : Option String := none
  mime_type : Option String := none
  operation : svn_wc_operation := .none
  action : svn_wc_conflict_action := .edit
  reason : svn_wc_conflict_reason := .edited
  node_kind : svn_node_kind := .unknown
  src_left_version : Option svn_wc_conflict_version := none
  src_right_version : Option svn_wc_conflict_version := none
deriving DecidableEq, Repr

/-- Tags naming the `conflict_option_resolve_func_t` implementations of
`conflicts.c`; an option's `do_resolve_func` field holds one of these. -/
inductive resolve_func_tag where
  | resolve_postpone
  | resolve_text_conflict
  | resolve_prop_conflict
  | resolve_accept_current_wc_state
  | resolve_update_break_moved_away
  | resolve_update_raise_moved_away
  | resolve_update_moved_away_node
deriving DecidableEq, Repr

/-- Tags naming the `tree_conflict_get_description_func_t`
implementations of `conflicts.c`. -/
inductive description_func_tag where
  | generic
  | incoming_delete
deriving DecidableEq, Repr

/-- Tags naming the `tree_conflict_get_details_func_t` implementations of
`conflicts.c` (there is exactly one). -/
inductive details_func_tag where
  | incoming_delete
deriving DecidableEq, Repr

/-- `struct conflict_tree_incoming_delete_details` from `conflicts.c`. -/
structure conflict_tree_incoming_delete_details where
  deleted_rev : Int
  added_rev : Int
  repos_relpath : String
  rev_author : String
deriving DecidableEq, Repr

/-- `struct svn_client_conflict_option_t` from `conflicts.c`.  The
back-pointer to the conflict is dropped (it is parent-owned and only
used to reach data we pass explicitly); `type_data.prop.propname` is
`prop_propname`. -/
structure svn_client_conflict_option where
  id : svn_client_conflict_option_id
  do_resolve_func : resolve_func_tag
  prop_propname : String := ""
  prop_merged_propval : Option String := none
deriving DecidableEq, Repr

/-- `struct svn_client_conflict_t` from `conflicts.c`.  APR hashes become
association lists; the context pointer and pools are dropped. -/
structure svn_client_conflict where
  local_abspath : String
  prop_conflicts : List (String × svn_wc_conflict_description2) := []
  resolution_text : svn_client_conflict_option_id := .unspecified
  resolution_tree : svn_client_conflict_option_id := .unspecified
  resolved_props : List (String × svn_client_conflict_option) := []
  tree_conflict_get_description_func : Option description_func_tag := none
  tree_conflict_get_details_func : Option details_func_tag := none
  tree_conflict_details : Option conflict_tree_incoming_delete_details := none
  legacy_text_conflict : Option svn_wc_conflict_description2 := none
  legacy_prop_conflict_propname : Option String := none
  legacy_tree_conflict : Option svn_wc_conflict_description2 := none
deriving DecidableEq, Repr

/-- Association-list update with `svn_hash_sets` semantics: replace an
existing binding in place, else append. -/
def alist_set {α : Type} (l : List (String × α)) (key : String) (val : α) :
    List (String × α) :=
  match l with
  | [] => [(key, val)]
  | (k, v) :: rest =>
      if k = key then (k, val) :: rest else (k, v) :: alist_set rest key val

/-- Association-list removal, `svn_hash_sets h key NULL`. -/
def alist_del {α : Type} (l : List (String × α)) (key : String) :
    List (String × α) :=
  match l with
  | [] => []
  | (k, v) :: rest => if k = key then rest else (k, v) :: alist_del rest key

/-- Association-list lookup, `svn_hash_gets`. -/
def alist_get {α : Type} (l : List (String × α)) (key : String) : Option α :=
  match l with
  | [] => none
  | (k, v) :: rest => if k = key then some v else alist_get rest key

/-- `conflict_option_id_to_wc_conflict_choice` from `conflicts.c`.  The
legacy `svn_wc_conflict_choice_t` values are represented by the option
ids they correspond to (the map is injective on the ids it accepts);
`undefined` is the fall-through result. -/
def conflict_option_id_to_wc_conflict_choice
    (option_id : svn_client_conflict_option_id) :
    svn_client_conflict_option_id :=
  match option_id with
  | .undefined => .undefined
  | .postpone => .postpone
  | .base_text => .base_text
  | .incoming_text => .incoming_text
  | .working_text => .working_text
  | .incoming_text_where_conflicted => .incoming_text_where_conflicted
  | .working_text_where_conflicted => .working_text_where_conflicted
  | .merged_text => .merged_text
  | .unspecified => .unspecified
  | _ => .undefined

/-- `get_conflict_desc2_t` from `conflicts.c`: the legacy descriptor the
conflict wraps — text first, then tree, then the property descriptor
named by `legacy_prop_conflict_propname`. -/
def get_conflict_desc2_t (conflict : svn_client_conflict) :
    Option svn_wc_conflict_description2 :=
  match conflict.legacy_text_conflict with
  | some desc => some desc
  | none =>
    match conflict.legacy_tree_conflict with
    | some desc => some desc
    | none =>
      match conflict.legacy_prop_conflict_propname with
      | some propname => alist_get conflict.prop_conflicts propname
      | none => none

/-- A placeholder descriptor standing for the C undefined behaviour of
dereferencing `get_conflict_desc2_t`'s NULL result; every claim below
only evaluates accessors on conflicts that carry the relevant
descriptor. -/
def null_desc : svn_wc_conflict_description2 :=
  { kind := .text }

/-- `svn_client_conflict_get_operation`. -/
def svn_client_conflict_get_operation (conflict : svn_client_conflict) :
    svn_wc_operation :=
  ((get_conflict_desc2_t conflict).getD null_desc).operation

/-- `svn_client_conflict_get_incoming_change`. -/
def svn_client_conflict_get_incoming_change (conflict : svn_client_conflict) :
    svn_wc_conflict_action :=
  ((get_conflict_desc2_t conflict).getD null_desc).action

/-- `svn_client_conflict_get_local_change`. -/
def svn_client_conflict_get_local_change (conflict : svn_client_conflict) :
    svn_wc_conflict_reason :=
  ((get_conflict_desc2_t conflict).getD null_desc).reason

/-- `svn_client_conflict_tree_get_victim_node_kind`. -/
def svn_client_conflict_tree_get_victim_node_kind
    (conflict : svn_client_conflict) : svn_node_kind :=
  ((get_conflict_desc2_t conflict).getD null_desc).node_kind

/-- `svn_client_conflict_text_get_mime_type`. -/
def svn_client_conflict_text_get_mime_type
    (conflict : svn_client_conflict) : Option String :=
  ((get_conflict_desc2_t conflict).getD null_desc).mime_type

/-- The `text_conflicted` output of `svn_client_conflict_get_conflicted`. -/
def conflict_text_conflicted (conflict : svn_client_conflict) : Bool :=
  conflict.legacy_text_conflict.isSome

/-- The `props_conflicted` output of `svn_client_conflict_get_conflicted`:
the keys of the `prop_conflicts` hash. -/
def conflict_props_conflicted (conflict : svn_client_conflict) :
    List String :=
  conflict.prop_conflicts.map Prod.fst

/-- The `tree_conflicted` output of `svn_client_conflict_get_conflicted`. -/
def conflict_tree_conflicted (conflict : svn_client_conflict) : Bool :=
  conflict.legacy_tree_conflict.isSome

/-- `add_legacy_desc_to_conflict` from `conflicts.c`. -/
def add_legacy_desc_to_conflict (conflict : svn_client_conflict)
    (desc : svn_wc_conflict_description2) : svn_client_conflict :=
  match desc.kind with
  | .text => { conflict with legacy_text_conflict := some desc }
  | .property =>
      { conflict with
          prop_conflicts :=
            alist_set conflict.prop_conflicts (desc.property_name.getD "") desc
          legacy_prop_conflict_propname := some (desc.property_name.getD "") }
  | .tree => { conflict with legacy_tree_conflict := some desc }

/-- `conflict_type_specific_setup` from `conflicts.c`: only tree conflicts
get a description function; the incoming-delete details function is
attached only for update and switch (the merge case is an explicit TODO
in the source). -/
def conflict_type_specific_setup (conflict : svn_client_conflict) :
    svn_client_conflict :=
  if conflict_tree_conflicted conflict = false then conflict
  else
    let conflict := { conflict with
                        tree_conflict_get_description_func :=
                          some .generic }
    let operation := svn_client_conflict_get_operation conflict
    let incoming_change := svn_client_conflict_get_incoming_change conflict
    if incoming_change = .delete ∧
       (operation = .update ∨ operation = .switch) then
      { conflict with
          tree_conflict_get_description_func := some .incoming_delete
          tree_conflict_get_details_func := some .incoming_delete }
    else conflict

/-- `conflict_get_internal` (and so `svn_client_conflict_get`) from
`conflicts.c`, on the non-legacy path: the working-copy store's conflict
descriptors for the path are supplied as the list `descs`, in the order
`svn_wc__read_conflict_descriptions2_t` returns them. -/
def conflict_get_internal (local_abspath : String)
    (descs : List svn_wc_conflict_description2) : svn_client_conflict :=
  let conflict : svn_client_conflict :=
    { local_abspath := local_abspath
      resolution_text := .unspecified
      resolution_tree := .unspecified
      resolved_props := [] }
  conflict_type_specific_setup (descs.foldl add_legacy_desc_to_conflict conflict)

/-- The static `text_conflict_options[]` table from `conflicts.c`
(ids and `do_resolve_func` fields; descriptions are display-only). -/
def text_conflict_options : List svn_client_conflict_option :=
  [ { id := .postpone, do_resolve_func := .resolve_postpone },
    { id := .base_text, do_resolve_func := .resolve_text_conflict },
    { id := .incoming_text, do_resolve_func := .resolve_text_conflict },
    { id := .working_text, do_resolve_func := .resolve_text_conflict },
    { id := .incoming_text_where_conflicted,
      do_resolve_func := .resolve_text_conflict },
    { id := .working_text_where_conflicted,
      do_resolve_func := .resolve_text_conflict },
    { id := .merged_text, do_resolve_func := .resolve_text_conflict } ]

/-- The static `binary_conflict_options[]` table from `conflicts.c`. -/
def binary_conflict_options : List svn_client_conflict_option :=
  [ { id := .postpone, do_resolve_func := .resolve_postpone },
    { id := .incoming_text, do_resolve_func := .resolve_text_conflict },
    { id := .working_text, do_resolve_func := .resolve_text_conflict },
    { id := .merged_text, do_resolve_func := .resolve_text_conflict } ]

/-- The static `prop_conflict_options[]` table from `conflicts.c`. -/
def prop_conflict_options : List svn_client_conflict_option :=
  [ { id := .postpone, do_resolve_func := .resolve_postpone },
    { id := .base_text, do_resolve_func := .resolve_prop_conflict },
    { id := .incoming_text, do_resolve_func := .resolve_prop_conflict },
    { id := .working_text, do_resolve_func := .resolve_prop_conflict },
    { id := .incoming_text_where_conflicted,
      do_resolve_func := .resolve_prop_conflict },
    { id := .working_text_where_conflicted,
      do_resolve_func := .resolve_prop_conflict },
    { id := .merged_text, do_resolve_func := .resolve_prop_conflict } ]

/-- `assert_text_conflict`: `SVN_ERR_ASSERT(text_conflicted)` produces an
`SVN_ERR_ASSERTION_FAIL` error when the conflict carries no text
conflict. -/
def assert_text_conflict (conflict : svn_client_conflict) :
    Option svn_error_kind :=
  if conflict_text_conflicted conflict then none else some .assertion_fail

/-- `assert_prop_conflict`: asserts `props_conflicted->nelts > 0`. -/
def assert_prop_conflict (conflict : svn_client_conflict) :
    Option svn_error_kind :=
  if conflict_props_conflicted conflict ≠ [] then none
  else some .assertion_fail

/-- `assert_tree_conflict`: asserts `tree_conflicted`. -/
def assert_tree_conflict (conflict : svn_client_conflict) :
    Option svn_error_kind :=
  if conflict_tree_conflicted conflict then none else some .assertion_fail

/-- `svn_client_conflict_text_get_resolution_options` from `conflicts.c`.
`svn_mime_type_is_binary` is an external collaborator (not under `src/`)
and is passed in as `mime_is_binary`. -/
def svn_client_conflict_text_get_resolution_options
    (mime_is_binary : String → Bool) (conflict : svn_client_conflict) :
    Except svn_error_kind (List svn_client_conflict_option) :=
  match assert_text_conflict conflict with
  | some err => .error err
  | none =>
    match svn_client_conflict_text_get_mime_type conflict with
    | some mime_type =>
        if mime_is_binary mime_type then .ok binary_conflict_options
        else .ok text_conflict_options
    | none => .ok text_conflict_options

/-- `svn_client_conflict_prop_get_resolution_options` from `conflicts.c`. -/
def svn_client_conflict_prop_get_resolution_options
    (conflict : svn_client_conflict) :
    Except svn_error_kind (List svn_client_conflict_option) :=
  match assert_prop_conflict conflict with
  | some err => .error err
  | none => .ok prop_conflict_options

/-- `svn_client_conflict_tree_get_resolution_options` from `conflicts.c`:
`postpone` and `accept_current_wc_state` are always offered; the
`accept_current_wc_state` option's resolve function is
`resolve_update_break_moved_away` in the moved-away/deleted/replaced ×
incoming-edit × update/switch situation; the two automated options are
offered situationally. -/
def svn_client_conflict_tree_get_resolution_options
    (conflict : svn_client_conflict) :
    Except svn_error_kind (List svn_client_conflict_option) :=
  let operation := svn_client_conflict_get_operation conflict
  let local_change := svn_client_conflict_get_local_change conflict
  let incoming_change := svn_client_conflict_get_incoming_change conflict
  match assert_tree_conflict conflict with
  | some err => .error err
  | none =>
    let postpone_option : svn_client_conflict_option :=
      { id := .postpone, do_resolve_func := .resolve_postpone }
    let accept_option : svn_client_conflict_option :=
      { id := .accept_current_wc_state
        do_resolve_func :=
          if (operation = .update ∨ operation = .switch) ∧
             (local_change = .moved_away ∨ local_change = .deleted ∨
              local_change = .replaced) ∧
             incoming_change = .edit then
            .resolve_update_break_moved_away
          else
            .resolve_accept_current_wc_state }
    let options := [postpone_option, accept_option]
    if svn_client_conflict_get_operation conflict = .update ∨
       svn_client_conflict_get_operation conflict = .switch then
      let reason := svn_client_conflict_get_local_change conflict
      if reason = .moved_away ∧ incoming_change = .edit then
        .ok (options ++
              [{ id := .update_move_destination
                 do_resolve_func := .resolve_update_moved_away_node }])
      else if reason = .deleted ∨ reason = .replaced then
        if svn_client_conflict_get_incoming_change conflict = .edit ∧
           svn_client_conflict_tree_get_victim_node_kind conflict = .dir then
          .ok (options ++
                [{ id := .update_any_moved_away_children
                   do_resolve_func := .resolve_update_raise_moved_away }])
        else .ok options
      else .ok options
    else .ok options

/-- `svn_client_conflict_option_find_by_id` from `conflicts.c`. -/
def svn_client_conflict_option_find_by_id
    (options : List svn_client_conflict_option)
    (option_id : svn_client_conflict_option_id) :
    Option svn_client_conflict_option :=
  options.find? (fun option => option.id = option_id)

/-- The calls a resolve function issues against the working-copy store
(`svn_wc__*` primitives, external to this repository). -/
inductive wc_store_call where
  | conflict_text_mark_resolved (choice : svn_client_conflict_option_id)
  | conflict_prop_mark_resolved (propname : String)
      (choice : svn_client_conflict_option_id)
  | del_tree_conflict
  | conflict_tree_update_break_moved_away
  | conflict_tree_update_raise_moved_away
  | conflict_tree_update_moved_away_node
deriving DecidableEq, Repr

/-- Outcomes the working-copy store (an external collaborator) reports
for each of its primitives, including the resolve write lock. -/
structure wc_store_outcomes where
  acquire_write_lock_err : Option svn_error_kind := none
  text_mark_resolved_err : Option svn_error_kind := none
  prop_mark_resolved_err : Option svn_error_kind := none
  del_tree_conflict_err : Option svn_error_kind := none
  break_moved_away_err : Option svn_error_kind := none
  raise_moved_away_err : Option svn_error_kind := none
  moved_away_node_err : Option svn_error_kind := none
  release_write_lock_err : Option svn_error_kind := none
deriving Repr

/-- Result of running a resolve function: the error (if any), the
conflict object afterwards, and the store calls that were issued. -/
structure resolve_result where
  err : Option svn_error_kind
  conflict : svn_client_conflict
  store_calls : List wc_store_call
deriving DecidableEq, Repr

/-- `svn_error_compose_create(err1, err2)`: `err1` if set (with `err2`
chained onto it, which the model drops), else `err2`. -/
def svn_error_compose_create (err1 err2 : Option svn_error_kind) :
    Option svn_error_kind :=
  match err1 with
  | some e => some e
  | none => err2

/-- `resolve_postpone` from `conflicts.c`: nothing to do. -/
def resolve_postpone (_option : svn_client_conflict_option)
    (conflict : svn_client_conflict) : resolve_result :=
  ⟨none, conflict, []⟩

/-- `resolve_text_conflict` from `conflicts.c`: lock, mark resolved in the
store, release, and only then record `resolution_text`. -/
def resolve_text_conflict (store : wc_store_outcomes)
    (option : svn_client_conflict_option)
    (conflict : svn_client_conflict) : resolve_result :=
  let option_id := option.id
  let conflict_choice := conflict_option_id_to_wc_conflict_choice option_id
  match store.acquire_write_lock_err with
  | some err => ⟨some err, conflict, []⟩
  | none =>
    let err := store.text_mark_resolved_err
    let err := svn_error_compose_create err store.release_write_lock_err
    let calls := [wc_store_call.conflict_text_mark_resolved conflict_choice]
    match err with
    | some e => ⟨some e, conflict, calls⟩
    | none =>
        ⟨none, { conflict with resolution_text := option_id }, calls⟩

/-- `resolve_prop_conflict` from `conflicts.c`: lock, mark the property
(or, for propname `""`, all properties) resolved in the store, release;
then update `resolved_props` and `prop_conflicts` on the conflict. -/
def resolve_prop_conflict (store : wc_store_outcomes)
    (option : svn_client_conflict_option)
    (conflict : svn_client_conflict) : resolve_result :=
  let option_id := option.id
  let conflict_choice := conflict_option_id_to_wc_conflict_choice option_id
  let propname := option.prop_propname
  match store.acquire_write_lock_err with
  | some err => ⟨some err, conflict, []⟩
  | none =>
    let err := store.prop_mark_resolved_err
    let err := svn_error_compose_create err store.release_write_lock_err
    let calls := [wc_store_call.conflict_prop_mark_resolved propname
                    conflict_choice]
    match err with
    | some e => ⟨some e, conflict, calls⟩
    | none =>
      if propname = "" then
        let conflict :=
          { conflict with
              resolved_props :=
                conflict.prop_conflicts.foldl
                  (fun resolved entry => alist_set resolved entry.1 option)
                  conflict.resolved_props
              prop_conflicts := []
              legacy_prop_conflict_propname := none }
        ⟨none, conflict, calls⟩
      else
        let remaining := alist_del conflict.prop_conflicts propname
        let conflict :=
          { conflict with
              resolved_props := alist_set conflict.resolved_props propname
                                  option
              prop_conflicts := remaining
              legacy_prop_conflict_propname :=
                (remaining.head?).map Prod.fst }
        ⟨none, conflict, calls⟩

/-- `resolve_accept_current_wc_state` from `conflicts.c`: guard the option
id, lock, delete the tree-conflict marker, release, then record
`resolution_tree`. -/
def resolve_accept_current_wc_state (store : wc_store_outcomes)
    (option : svn_client_conflict_option)
    (conflict : svn_client_conflict) : resolve_result :=
  let option_id := option.id
  if option_id ≠ .accept_current_wc_state then
    ⟨some .wc_conflict_resolver_failure, conflict, []⟩
  else
    match store.acquire_write_lock_err with
    | some err => ⟨some err, conflict, []⟩
    | none =>
      let err := store.del_tree_conflict_err
      let err := svn_error_compose_create err store.release_write_lock_err
      let calls := [wc_store_call.del_tree_conflict]
      match err with
      | some e => ⟨some e, conflict, calls⟩
      | none => ⟨none, { conflict with resolution_tree := option_id }, calls⟩

/-- `resolve_update_break_moved_away` from `conflicts.c`. -/
def resolve_update_break_moved_away (store : wc_store_outcomes)
    (option : svn_client_conflict_option)
    (conflict : svn_client_conflict) : resolve_result :=
  match store.acquire_write_lock_err with
  | some err => ⟨some err, conflict, []⟩
  | none =>
    let err := store.break_moved_away_err
    let err := svn_error_compose_create err store.release_write_lock_err
    let calls := [wc_store_call.conflict_tree_update_break_moved_away]
    match err with
    | some e => ⟨some e, conflict, calls⟩
    | none => ⟨none, { conflict with resolution_tree := option.id }, calls⟩

/-- `resolve_update_raise_moved_away` from `conflicts.c`. -/
def resolve_update_raise_moved_away (store : wc_store_outcomes)
    (option : svn_client_conflict_option)
    (conflict : svn_client_conflict) : resolve_result :=
  match store.acquire_write_lock_err with
  | some err => ⟨some err, conflict, []⟩
  | none =>
    let err := store.raise_moved_away_err
    let err := svn_error_compose_create err store.release_write_lock_err
    let calls := [wc_store_call.conflict_tree_update_raise_moved_away]
    match err with
    | some e => ⟨some e, conflict, calls⟩
    | none => ⟨none, { conflict with resolution_tree := option.id }, calls⟩

/-- `resolve_update_moved_away_node` from `conflicts.c`. -/
def resolve_update_moved_away_node (store : wc_store_outcomes)
    (option : svn_client_conflict_option)
    (conflict : svn_client_conflict) : resolve_result :=
  match store.acquire_write_lock_err with
  | some err => ⟨some err, conflict, []⟩
  | none =>
    let err := store.moved_away_node_err
    let err := svn_error_compose_create err store.release_write_lock_err
    let calls := [wc_store_call.conflict_tree_update_moved_away_node]
    match err with
    | some e => ⟨some e, conflict, calls⟩
    | none => ⟨none, { conflict with resolution_tree := option.id }, calls⟩

/-- Dispatch on an option's `do_resolve_func` function pointer. -/
def run_do_resolve_func (store : wc_store_outcomes)
    (option : svn_client_conflict_option)
    (conflict : svn_client_conflict) : resolve_result :=
  match option.do_resolve_func with
  | .resolve_postpone => resolve_postpone option conflict
  | .resolve_text_conflict => resolve_text_conflict store option conflict
  | .resolve_prop_conflict => resolve_prop_conflict store option conflict
  | .resolve_accept_current_wc_state =>
      resolve_accept_current_wc_state store option conflict
  | .resolve_update_break_moved_away =>
      resolve_update_break_moved_away store option conflict
  | .resolve_update_raise_moved_away =>
      resolve_update_raise_moved_away store option conflict
  | .resolve_update_moved_away_node =>
      resolve_update_moved_away_node store option conflict

/-- `svn_client_conflict_text_resolve` from `conflicts.c`. -/
def svn_client_conflict_text_resolve (store : wc_store_outcomes)
    (conflict : svn_client_conflict)
    (option : svn_client_conflict_option) : resolve_result :=
  match assert_text_conflict conflict with
  | some err => ⟨some err, conflict, []⟩
  | none => run_do_resolve_func store option conflict

/-- `svn_client_conflict_prop_resolve` from `conflicts.c`: stores the
caller's propname into the option before dispatching. -/
def svn_client_conflict_prop_resolve (store : wc_store_outcomes)
    (conflict : svn_client_conflict) (propname : String)
    (option : svn_client_conflict_option) : resolve_result :=
  match assert_prop_conflict conflict with
  | some err => ⟨some err, conflict, []⟩
  | none =>
      run_do_resolve_func store { option with prop_propname := propname }
        conflict

/-- `svn_client_conflict_tree_resolve` from `conflicts.c`. -/
def svn_client_conflict_tree_resolve (store : wc_store_outcomes)
    (conflict : svn_client_conflict)
    (option : svn_client_conflict_option) : resolve_result :=
  match assert_tree_conflict conflict with
  | some err => ⟨some err, conflict, []⟩
  | none => run_do_resolve_func store option conflict

/-- The backwards-compatibility option-id fix-up block at the top of
`svn_client_conflict_tree_resolve_by_id` in `conflicts.c`. -/
def conflict_tree_remap_option_id (conflict : svn_client_conflict)
    (option_id : svn_client_conflict_option_id) :
    svn_client_conflict_option_id :=
  if option_id = .working_text_where_conflicted then
    let operation := svn_client_conflict_get_operation conflict
    if operation = .update ∨ operation = .switch then
      let reason := svn_client_conflict_get_local_change conflict
      if reason = .moved_away then .update_move_destination
      else if reason = .deleted ∨ reason = .replaced then
        let action := svn_client_conflict_get_incoming_change conflict
        let node_kind :=
          svn_client_conflict_tree_get_victim_node_kind conflict
        if action = .edit ∧ node_kind = .dir then
          .update_any_moved_away_children
        else option_id
      else option_id
    else option_id
  else if option_id = .merged_text then .accept_current_wc_state
  else option_id

/-- `svn_client_conflict_tree_resolve_by_id` from `conflicts.c`: remap
legacy ids, enumerate the conflict's options, fail with
`SVN_ERR_CLIENT_CONFLICT_OPTION_NOT_APPLICABLE` when the (remapped) id
is not offered, else resolve. -/
def svn_client_conflict_tree_resolve_by_id (store : wc_store_outcomes)
    (conflict : svn_client_conflict)
    (option_id : svn_client_conflict_option_id) : resolve_result :=
  let option_id := conflict_tree_remap_option_id conflict option_id
  match svn_client_conflict_tree_get_resolution_options conflict with
  | .error err => ⟨some err, conflict, []⟩
  | .ok resolution_options =>
    match svn_client_conflict_option_find_by_id resolution_options
            option_id with
    | none => ⟨some .client_conflict_option_not_applicable, conflict, []⟩
    | some option => svn_client_conflict_tree_resolve store conflict option

/-- `svn_client_conflict_prop_resolve_by_id` from `conflicts.c`. -/
def svn_client_conflict_prop_resolve_by_id (store : wc_store_outcomes)
    (conflict : svn_client_conflict) (propname : String)
    (option_id : svn_client_conflict_option_id) : resolve_result :=
  match svn_client_conflict_prop_get_resolution_options conflict with
  | .error err => ⟨some err, conflict, []⟩
  | .ok resolution_options =>
    match svn_client_conflict_option_find_by_id resolution_options
            option_id with
    | none => ⟨some .client_conflict_option_not_applicable, conflict, []⟩
    | some option =>
        svn_client_conflict_prop_resolve store conflict propname option

/-- `svn_client_conflict_text_resolve_by_id` from `conflicts.c`. -/
def svn_client_conflict_text_resolve_by_id (store : wc_store_outcomes)
    (mime_is_binary : String → Bool) (conflict : svn_client_conflict)
    (option_id : svn_client_conflict_option_id) : resolve_result :=
  match svn_client_conflict_text_get_resolution_options mime_is_binary
          conflict with
  | .error err => ⟨some err, conflict, []⟩
  | .ok resolution_options =>
    match svn_client_conflict_option_find_by_id resolution_options
            option_id with
    | none => ⟨some .client_conflict_option_not_applicable, conflict, []⟩
    | some option => svn_client_conflict_text_resolve store conflict option

/-- `svn_client_conflict_text_get_resolution`. -/
def svn_client_conflict_text_get_resolution
    (conflict : svn_client_conflict) : svn_client_conflict_option_id :=
  conflict.resolution_text

/-- `svn_client_conflict_tree_get_resolution`. -/
def svn_client_conflict_tree_get_resolution
    (conflict : svn_client_conflict) : svn_client_conflict_option_id :=
  conflict.resolution_tree

/-- `svn_client_conflict_prop_get_resolution` from `conflicts.c`. -/
def svn_client_conflict_prop_get_resolution
    (conflict : svn_client_conflict) (propname : String) :
    svn_client_conflict_option_id :=
  match alist_get conflict.resolved_props propname with
  | none => .unspecified
  | some option => option.id

/-- `svn_client_conflict_get_incoming_old_repos_location` from
`conflicts.c`: relpath and peg revision of `src_left_version`
(`NULL`/`SVN_INVALID_REVNUM` when absent). -/
def svn_client_conflict_get_incoming_old_repos_location
    (conflict : svn_client_conflict) : Option String × Int :=
  match ((get_conflict_desc2_t conflict).getD null_desc).src_left_version with
  | some v => (some v.path_in_repos, v.peg_rev)
  | none => (none, SVN_INVALID_REVNUM)

/-- `svn_client_conflict_get_incoming_new_repos_location` from
`conflicts.c`: relpath and peg revision of `src_right_version`. -/
def svn_client_conflict_get_incoming_new_repos_location
    (conflict : svn_client_conflict) : Option String × Int :=
  match ((get_conflict_desc2_t conflict).getD null_desc).src_right_version
  with
  | some v => (some v.path_in_repos, v.peg_rev)
  | none => (none, SVN_INVALID_REVNUM)

/-- `svn_client_conflict_get_repos_info` from `conflicts.c` (root URL
part): `src_left_version`'s repository URL, else `src_right_version`'s. -/
def svn_client_conflict_get_repos_info (conflict : svn_client_conflict) :
    Option String :=
  match ((get_conflict_desc2_t conflict).getD null_desc).src_left_version
  with
  | some v => some v.repos_url
  | none =>
    match ((get_conflict_desc2_t conflict).getD null_desc).src_right_version
    with
    | some v => some v.repos_url
    | none => none

/-- `svn_location_segment_t` from `svn_types.h`. `path = none` is a gap. -/
structure svn_location_segment where
  range_start : Int
  range_end : Int
  path : Option String
deriving DecidableEq, Repr

/-- One entry of a log entry's `changed_paths2` hash: path and action
character (`'A'`, `'D'`, `'R'`, `'M'`). -/
structure svn_log_changed_path where
  path : String
  action : Char
deriving DecidableEq, Repr

/-- `svn_log_entry_t` as consumed by `find_deleted_rev`:
`changed_paths2 = none` models a NULL changed-paths hash. -/
structure svn_log_entry where
  revision : Int
  changed_paths2 : Option (List svn_log_changed_path)
deriving DecidableEq, Repr

/-- Oracle for the repository-access layer (external to this repository).
Each field answers one RA primitive; streamed results (location
segments, log entries) are given as lists in the order the RA layer
drives the receiver.  Per the RA contract, location segments are
delivered in youngest-to-oldest order and `get_log2` with `end = 0`
delivers log entries from `start` downwards. -/
structure ra_session_oracle where
  /-- `svn_ra_get_deleted_rev(session@url, relpath, start, end)`. -/
  deleted_rev_fn : String → String → Int → Int → Int
  /-- `svn_ra_rev_prop(session, rev, SVN_PROP_REVISION_AUTHOR)`. -/
  rev_author : Int → String
  /-- `svn_ra_get_location_segments(session@url, relpath, peg, start, end)`. -/
  location_segments_fn : String → String → Int → Int → Int →
    List svn_location_segment
  /-- `svn_ra_get_log2(session@url, relpath, start, end, ...)`. -/
  log_entries_fn : String → String → Int → Int → List svn_log_entry
  /-- `svn_client__get_youngest_common_ancestor` on
  `(relpath1@rev1, relpath2@rev2)`: whether a YCA exists. -/
  yca_exists : String → Int → String → Int → Bool

/-- The RA calls the details fetcher issues, for the frame/trace claims. -/
inductive ra_call where
  | open_ra_session (url : String)
  | get_deleted_rev (relpath : String) (start_rev : Int) (end_rev : Int)
  | rev_prop (rev : Int)
  | get_location_segments (relpath : String) (peg : Int) (start_rev : Int)
      (end_rev : Int)
  | get_log (relpath : String) (start_rev : Int) (end_rev : Int)
deriving DecidableEq, Repr

/-- `svn_path_url_add_component2(url, component)`: join, leaving the URL
unchanged for an empty component. -/
def svn_path_url_add_component2 (url component : String) : String :=
  if component = "" then url else url ++ "/" ++ component

/-- `svn_relpath_dirname`: the relpath with its last component removed. -/
def svn_relpath_dirname (relpath : String) : String :=
  String.intercalate "/" ((relpath.splitOn "/").dropLast)

/-- The `### Remove leading slash from paths in log entries` step of
`find_deleted_rev` (`svn_relpath_canonicalize` on an absolute fspath). -/
def log_path_canonicalize (path : String) : String :=
  if path.startsWith "/" then path.drop 1 else path

/-- `struct find_deleted_rev_baton` from `conflicts.c` (the context
pointer and repository coordinates live in the oracle). -/
structure find_deleted_rev_baton where
  deleted_repos_relpath : String
  related_repos_relpath : String
  related_repos_peg_rev : Int
  deleted_rev : Int
deriving DecidableEq, Repr

/-- The changed-paths loop body of `find_deleted_rev`: scan the entries of
one log entry's changed-paths hash; on the first `'D'`/`'R'` entry at
the victim path that is ancestrally related (a YCA exists), record the
log revision and raise `SVN_ERR_CANCELLED` to abort the log operation. -/
def find_deleted_rev_scan_paths (oracle : ra_session_oracle)
    (b : find_deleted_rev_baton) (log_revision : Int) :
    List svn_log_changed_path → find_deleted_rev_baton × Option svn_error_kind
  | [] => (b, none)
  | item :: rest =>
    let path := log_path_canonicalize item.path
    if path = b.deleted_repos_relpath ∧
       (item.action = 'D' ∨ item.action = 'R') then
      if oracle.yca_exists b.related_repos_relpath b.related_repos_peg_rev
           b.deleted_repos_relpath (log_revision - 1) then
        ({ b with deleted_rev := log_revision }, some .cancelled)
      else find_deleted_rev_scan_paths oracle b log_revision rest
    else find_deleted_rev_scan_paths oracle b log_revision rest

/-- `find_deleted_rev` from `conflicts.c` (one log entry). -/
def find_deleted_rev (oracle : ra_session_oracle)
    (b : find_deleted_rev_baton) (log_entry : svn_log_entry) :
    find_deleted_rev_baton × Option svn_error_kind :=
  match log_entry.changed_paths2 with
  | none => (b, none)
  | some items =>
      find_deleted_rev_scan_paths oracle b log_entry.revision items

/-- The receiver-driving loop of `svn_ra_get_log2`: feed each delivered
log entry to `find_deleted_rev`, aborting on the first error. -/
def run_find_deleted_rev (oracle : ra_session_oracle)
    (b : find_deleted_rev_baton) :
    List svn_log_entry → find_deleted_rev_baton × Option svn_error_kind
  | [] => (b, none)
  | log_entry :: rest =>
    match find_deleted_rev oracle b log_entry with
    | (b, some err) => (b, some err)
    | (b, none) => run_find_deleted_rev oracle b rest

/-- The receiver-driving loop of `svn_ra_get_location_segments` with
`find_added_rev` from `conflicts.c`: every non-gap segment overwrites
`added_rev`/`repos_relpath`, so the last delivered non-gap segment
wins.  The baton starts from the `apr_pcalloc`-zeroed details. -/
def run_find_added_rev (segments : List svn_location_segment)
    (details : conflict_tree_incoming_delete_details) :
    conflict_tree_incoming_delete_details :=
  segments.foldl
    (fun details segment =>
      match segment.path with
      | some path =>
          { details with added_rev := segment.range_start
                         repos_relpath := path }
      | none => details)
    details

/-- The `apr_pcalloc`-zeroed `conflict_tree_incoming_delete_details`
(`0` revisions, NULL strings modelled as `""`). -/
def pcalloc_details : conflict_tree_incoming_delete_details :=
  { deleted_rev := 0, added_rev := 0, repos_relpath := "", rev_author := "" }

/-- The `old_repos_relpath` a details fetcher extracts from the conflict
(relpath of `src_left_version`; the C string is never NULL on the paths
the claims exercise, `""` stands for NULL). -/
def conflict_old_repos_relpath (conflict : svn_client_conflict) : String :=
  (svn_client_conflict_get_incoming_old_repos_location conflict).1.getD ""

/-- The `old_rev` a details fetcher extracts from the conflict. -/
def conflict_old_rev (conflict : svn_client_conflict) : Int :=
  (svn_client_conflict_get_incoming_old_repos_location conflict).2

/-- The `new_repos_relpath` a details fetcher extracts from the conflict. -/
def conflict_new_repos_relpath (conflict : svn_client_conflict) : String :=
  (svn_client_conflict_get_incoming_new_repos_location conflict).1.getD ""

/-- The `new_rev` a details fetcher extracts from the conflict. -/
def conflict_new_rev (conflict : svn_client_conflict) : Int :=
  (svn_client_conflict_get_incoming_new_repos_location conflict).2

/-- The `repos_root_url` a details fetcher extracts from the conflict. -/
def conflict_repos_root_url (conflict : svn_client_conflict) : String :=
  (svn_client_conflict_get_repos_info conflict).getD ""

/-- The specification's reading of the reverse update and switch case: the
start revision of the first location segment of the node's history that
is not a gap.  The RA layer delivers segments youngest-to-oldest, so the
chronologically first non-gap segment is the last delivered one; when
every delivered segment is a gap this is the `apr_pcalloc` default 0. -/
def first_history_added_rev (segments : List svn_location_segment) : Int :=
  match segments.reverse.find? (fun segment => segment.path.isSome) with
  | some segment => segment.range_start
  | none => 0

/-- Result of the details fetcher: error, conflict afterwards, RA calls. -/
structure details_result where
  err : Option svn_error_kind
  conflict : svn_client_conflict
  ra_calls : List ra_call
deriving DecidableEq, Repr

/-- `conflict_tree_get_details_incoming_delete` from `conflicts.c`.

Four cases by operation × direction; the merge/none arm is unreachable
(the fetcher is only installed for update/switch by
`conflict_type_specific_setup`; in C it would read an uninitialized
`details` variable) and is modelled as leaving the conflict unchanged. -/
def conflict_tree_get_details_incoming_delete (oracle : ra_session_oracle)
    (conflict : svn_client_conflict) : details_result :=
  let old_repos_relpath := conflict_old_repos_relpath conflict
  let old_rev := conflict_old_rev conflict
  let new_repos_relpath := conflict_new_repos_relpath conflict
  let new_rev := conflict_new_rev conflict
  let repos_root_url := conflict_repos_root_url conflict
  let operation := svn_client_conflict_get_operation conflict
  if operation = .update then
    if old_rev < new_rev then
      /- The update operation went forward in history. -/
      let url := svn_path_url_add_component2 repos_root_url new_repos_relpath
      let deleted_rev := oracle.deleted_rev_fn url "" old_rev new_rev
      let author := oracle.rev_author deleted_rev
      let details : conflict_tree_incoming_delete_details :=
        { deleted_rev := deleted_rev
          added_rev := SVN_INVALID_REVNUM
          repos_relpath := new_repos_relpath
          rev_author := author }
      ⟨none, { conflict with tree_conflict_details := some details },
        [.open_ra_session url, .get_deleted_rev "" old_rev new_rev,
         .rev_prop deleted_rev]⟩
    else
      /- The update operation went backwards in history. -/
      let url := svn_path_url_add_component2 repos_root_url old_repos_relpath
      let segments := oracle.location_segments_fn url "" old_rev old_rev
                        new_rev
      let details := run_find_added_rev segments pcalloc_details
      let author := oracle.rev_author details.added_rev
      let details :=
        { details with deleted_rev := SVN_INVALID_REVNUM
                       repos_relpath := new_repos_relpath
                       rev_author := author }
      ⟨none, { conflict with tree_conflict_details := some details },
        [.open_ra_session url,
         .get_location_segments "" old_rev old_rev new_rev,
         .rev_prop details.added_rev]⟩
  else if operation = .switch then
    if old_rev < new_rev then
      /- The switch operation went forward in history: scan the log of the
         parent of `new_repos_relpath` from `new_rev` down to 0. -/
      let url := svn_path_url_add_component2 repos_root_url
                   (svn_relpath_dirname new_repos_relpath)
      let b : find_deleted_rev_baton :=
        { deleted_repos_relpath := new_repos_relpath
          related_repos_relpath := old_repos_relpath
          related_repos_peg_rev := old_rev
          deleted_rev := SVN_INVALID_REVNUM }
      let log_calls := [ra_call.open_ra_session url,
                        ra_call.get_log "" new_rev 0]
      match run_find_deleted_rev oracle b
              (oracle.log_entries_fn url "" new_rev 0) with
      | (b, some err) =>
        if err = .cancelled ∧ b.deleted_rev ≠ SVN_INVALID_REVNUM then
          /- Log operation was aborted because we found a YCA. -/
          let author := oracle.rev_author b.deleted_rev
          let details : conflict_tree_incoming_delete_details :=
            { deleted_rev := b.deleted_rev
              added_rev := SVN_INVALID_REVNUM
              repos_relpath := new_repos_relpath
              rev_author := author }
          ⟨none, { conflict with tree_conflict_details := some details },
            log_calls ++ [.rev_prop b.deleted_rev]⟩
        else ⟨some err, conflict, log_calls⟩
      | (b, none) =>
        if b.deleted_rev = SVN_INVALID_REVNUM then
          /- Could not determine the deleting revision: fall back to the
             default description; not an error. -/
          ⟨none, conflict, log_calls⟩
        else
          let author := oracle.rev_author b.deleted_rev
          let details : conflict_tree_incoming_delete_details :=
            { deleted_rev := b.deleted_rev
              added_rev := SVN_INVALID_REVNUM
              repos_relpath := new_repos_relpath
              rev_author := author }
          ⟨none, { conflict with tree_conflict_details := some details },
            log_calls ++ [.rev_prop b.deleted_rev]⟩
    else
      /- The switch operation went backwards in history. -/
      let url := svn_path_url_add_component2 repos_root_url old_repos_relpath
      let segments := oracle.location_segments_fn url "" old_rev old_rev
                        new_rev
      let details := run_find_added_rev segments pcalloc_details
      let author := oracle.rev_author details.added_rev
      let details :=
        { details with deleted_rev := SVN_INVALID_REVNUM
                       repos_relpath := new_repos_relpath
                       rev_author := author }
      ⟨none, { conflict with tree_conflict_details := some details },
        [.open_ra_session url,
         .get_location_segments "" old_rev old_rev new_rev,
         .rev_prop details.added_rev]⟩
  else
    ⟨none, conflict, []⟩

/-- `svn_client_conflict_tree_get_details` from `conflicts.c`: assert the
tree conflict, then invoke the attached details fetcher, if any. -/
def svn_client_conflict_tree_get_details (oracle : ra_session_oracle)
    (conflict : svn_client_conflict) : details_result :=
  match assert_tree_conflict conflict with
  | some err => ⟨some err, conflict, []⟩
  | none =>
    match conflict.tree_conflict_get_details_func with
    | none => ⟨none, conflict, []⟩
    | some .incoming_delete =>
        conflict_tree_get_details_incoming_delete oracle conflict

/-! ### The ra_dav commit editor (`subversion/libsvn_ra_dav/commit.c`)

The editor functions of this file print the DAV requests they intend to
issue (`CHECKOUT`, `PUT`, `CHECKIN`, ...) and perform no network I/O yet;
the model records exactly those emitted operations as a trace. -/

/-- The server-side (DAV) operations the commit editor emits. -/
inductive dav_op where
  | mkactivity (url : String)
  | checkout (url : String)
  | delete_resource (url : String)
  | mkcol (url : String)
  | copy_resource (src : String) (dst : String)
  | proppatch (url : String)
  | put (url : String)
  | checkin (activity : String)
deriving DecidableEq, Repr

/-- `commit_ctx_t` from `commit.c`: `new_revision` is the caller's output
cell (`*cc->new_revision`), `trace` the emitted operations. -/
structure commit_ctx where
  root_path : String
  activity_url : Option String
  new_revision : Int
  trace : List dav_op
deriving DecidableEq, Repr

/-- `dir_baton_t` / `file_baton_t` from `commit.c` (only `res.url` is
ever read). -/
structure resource_baton where
  url : String
deriving DecidableEq, Repr

/-- `create_activity` from `commit.c`: build `ACTIVITY_URL/UUID`, issue
`MKACTIVITY`, and fail with `SVN_ERR_RA_MKACTIVITY_FAILED` unless the
server answers 201.  (`svn_ra_dav__get_commit_editor` never actually
invokes this: the call is disabled by `0 && create_activity(cc)`.) -/
def create_activity (activity_base_url uuid : String) (http_status : Nat)
    (cc : commit_ctx) : Option svn_error_kind × commit_ctx :=
  let activity_url := activity_base_url ++ "/" ++ uuid
  let cc := { cc with activity_url := some activity_url
                      trace := cc.trace ++ [.mkactivity activity_url] }
  if http_status ≠ 201 then (some .ra_mkactivity_failed, cc)
  else (none, cc)

/-- `commit_replace_root` from `commit.c`: the root baton's URL is the
session's root path; nothing is emitted. -/
def commit_replace_root (cc : commit_ctx) : resource_baton × commit_ctx :=
  (⟨cc.root_path⟩, cc)

/-- `commit_delete` from `commit.c`. -/
def commit_delete (name : String) (parent : resource_baton)
    (cc : commit_ctx) : commit_ctx :=
  { cc with trace := cc.trace ++
      [.checkout parent.url, .delete_resource (parent.url ++ "/" ++ name)] }

/-- `commit_add_dir` from `commit.c`. -/
def commit_add_dir (name : String) (parent : resource_baton)
    (cc : commit_ctx) : resource_baton × commit_ctx :=
  let child : resource_baton := ⟨parent.url ++ "/" ++ name⟩
  (child, { cc with trace := cc.trace ++
              [.checkout parent.url, .mkcol child.url] })

/-- `commit_rep_dir` from `commit.c`. -/
def commit_rep_dir (name : String) (ancestor_path : String)
    (parent : resource_baton) (cc : commit_ctx) :
    resource_baton × commit_ctx :=
  let child : resource_baton := ⟨parent.url ++ "/" ++ name⟩
  (child, { cc with trace := cc.trace ++
              [.checkout parent.url, .copy_resource ancestor_path child.url] })

/-- `commit_change_dir_prop` from `commit.c`. -/
def commit_change_dir_prop (dir : resource_baton) (cc : commit_ctx) :
    commit_ctx :=
  { cc with trace := cc.trace ++ [.checkout dir.url, .proppatch dir.url] }

/-- `commit_close_dir` from `commit.c`: nothing. -/
def commit_close_dir (_dir : resource_baton) (cc : commit_ctx) :
    commit_ctx :=
  cc

/-- `commit_add_file` from `commit.c`: emits `CHECKOUT` of the file URL. -/
def commit_add_file (name : String) (parent : resource_baton)
    (cc : commit_ctx) : resource_baton × commit_ctx :=
  let file : resource_baton := ⟨parent.url ++ "/" ++ name⟩
  (file, { cc with trace := cc.trace ++ [.checkout file.url] })

/-- `commit_rep_file` from `commit.c`: emits `CHECKOUT` of the file URL. -/
def commit_rep_file (name : String) (parent : resource_baton)
    (cc : commit_ctx) : resource_baton × commit_ctx :=
  let file : resource_baton := ⟨parent.url ++ "/" ++ name⟩
  (file, { cc with trace := cc.trace ++ [.checkout file.url] })

/-- `commit_apply_txdelta` from `commit.c`: emits `PUT`; the installed
window handler (`commit_send_txdelta`) does nothing. -/
def commit_apply_txdelta (file : resource_baton) (cc : commit_ctx) :
    commit_ctx :=
  { cc with trace := cc.trace ++ [.put file.url] }

/-- `commit_change_file_prop` from `commit.c`. -/
def commit_change_file_prop (file : resource_baton) (cc : commit_ctx) :
    commit_ctx :=
  { cc with trace := cc.trace ++ [.checkout file.url, .proppatch file.url] }

/-- `commit_close_file` from `commit.c`: nothing. -/
def commit_close_file (_file : resource_baton) (cc : commit_ctx) :
    commit_ctx :=
  cc

/-- `commit_close_edit` from `commit.c`: emits `CHECKIN` and stores the
local `new_revision`, which is initialized to `SVN_INVALID_REVNUM` and —
per the `todo` comment in the source — never set from the server's
response, into the caller's output cell. -/
def commit_close_edit (cc : commit_ctx) : commit_ctx :=
  let new_revision := SVN_INVALID_REVNUM
  { cc with
      trace := cc.trace ++ [.checkin (cc.activity_url.getD "(activity)")]
      new_revision := new_revision }

/-- `svn_ra_dav__get_commit_editor` from `commit.c`.  The C computes
`err = 0 && create_activity(cc)`, so `create_activity` is never invoked
and no activity exists when the edit is replayed;
`caller_new_revision` is the initial content of the caller's output
cell. -/
def svn_ra_dav__get_commit_editor (root_path : String)
    (caller_new_revision : Int) : commit_ctx :=
  { root_path := root_path
    activity_url := none
    new_revision := caller_new_revision
    trace := [] }

/-- Driving the commit editor with scenario S2 of the spec: a single
text modification of `a.txt` under the root, against a working copy at
revision 10 (`replace_root`, `rep_file`, `apply_txdelta`, `close_file`,
`close_dir`, `close_edit`). -/
def commit_drive_single_file_mod (root_path : String)
    (caller_new_revision : Int) : commit_ctx :=
  let cc := svn_ra_dav__get_commit_editor root_path caller_new_revision
  let (root, cc) := commit_replace_root cc
  let (file, cc) := commit_rep_file "a.txt" root cc
  let cc := commit_apply_txdelta file cc
  let cc := commit_close_file file cc
  let cc := commit_close_dir root cc
  commit_close_edit cc

/-! ### Fixtures used by the claim witnesses and counterexamples -/

/-- A text-conflict descriptor for a binary file, as the store would
report it for an update of `a.txt`. -/
def fixture_text_desc : svn_wc_conflict_description2 :=
  { kind := .text
    mime_type := some "application/octet-stream"
    operation := .update
    action := .edit
    reason := .edited
    node_kind := .file }

/-- A conflict object wrapping `fixture_text_desc`. -/
def fixture_text_conflict : svn_client_conflict :=
  conflict_get_internal "/wc/a.txt" [fixture_text_desc]

/-- A tree-conflict descriptor with the given situation, located at
`trunk/a.txt` between pegs 10 (left) and 12 (right). -/
def fixture_tree_desc (operation : svn_wc_operation)
    (action : svn_wc_conflict_action) (reason : svn_wc_conflict_reason)
    (node_kind : svn_node_kind) : svn_wc_conflict_description2 :=
  { kind := .tree
    operation := operation
    action := action
    reason := reason
    node_kind := node_kind
    src_left_version :=
      some ⟨"http://host/repo", "uuid-1", "trunk/a.txt", 10, node_kind⟩
    src_right_version :=
      some ⟨"http://host/repo", "uuid-1", "trunk/a.txt", 12, node_kind⟩ }

/-- A conflict object wrapping a `fixture_tree_desc`. -/
def fixture_tree_conflict (operation : svn_wc_operation)
    (action : svn_wc_conflict_action) (reason : svn_wc_conflict_reason)
    (node_kind : svn_node_kind) : svn_client_conflict :=
  conflict_get_internal "/wc/a.txt"
    [fixture_tree_desc operation action reason node_kind]

/-- A property-conflict descriptor for the named property. -/
def fixture_prop_desc (name : String) : svn_wc_conflict_description2 :=
  { kind := .property
    property_name := some name
    operation := .update
    action := .edit
    reason := .edited
    node_kind := .dir }

/-- A conflict object carrying two property conflicts. -/
def fixture_prop_conflict : svn_client_conflict :=
  conflict_get_internal "/wc/dir"
    [fixture_prop_desc "svn:ignore", fixture_prop_desc "svn:mergeinfo"]

/-- A store in which every working-copy primitive succeeds. -/
def fixture_store_ok : wc_store_outcomes := {}

/-- An RA oracle answering: the victim was deleted in r12 by alice; its
history is one segment r3–r10; the log of r12 shows the deletion. -/
def fixture_oracle : ra_session_oracle :=
  { deleted_rev_fn := fun _ _ _ _ => 12
    rev_author := fun _ => "alice"
    location_segments_fn := fun _ _ _ _ _ =>
      [⟨3, 10, some "trunk/a.txt"⟩]
    log_entries_fn := fun _ _ _ _ =>
      [⟨12, some [⟨"/trunk/a.txt", 'D'⟩]⟩]
    yca_exists := fun _ _ _ _ => true }

/-! ### Claims -/

/-- C1 (failing-input exhibit): the spec requires the commit driver to
create an activity before replaying the edit and to store the server's
new revision (11, for a working copy at revision 10) at check-in; the
code of `commit.c` never invokes `create_activity` (the call is disabled
by `0 && create_activity(cc)`) and `commit_close_edit` stores
`SVN_INVALID_REVNUM` (the `todo` in the source).  Driving the
single-file-modification edit of scenario S2 emits no activity creation
and reports `SVN_INVALID_REVNUM`, not 11. -/
theorem commit_close_edit_returns_invalid_revision :
    (commit_drive_single_file_mod "http://host/repo" 10).new_revision =
        SVN_INVALID_REVNUM ∧
      SVN_INVALID_REVNUM ≠ (11 : Int) ∧
      (commit_drive_single_file_mod "http://host/repo" 10).trace =
        [.checkout "http://host/repo/a.txt", .put "http://host/repo/a.txt",
         .checkin "(activity)"] ∧
      ∀ url, dav_op.mkactivity url ∉
        (commit_drive_single_file_mod "http://host/repo" 10).trace := by
  refine ⟨rfl, by decide, rfl, ?_⟩
  intro url h
  simp [commit_drive_single_file_mod, svn_ra_dav__get_commit_editor,
        commit_replace_root, commit_rep_file, commit_apply_txdelta,
        commit_close_file, commit_close_dir, commit_close_edit] at h

/-- C6: for a text conflict, option enumeration returns exactly
`postpone`, `base`, `incoming`, `working`, `incoming-where-conflicted`,
`working-where-conflicted`, `merged` when the file's MIME type is not
binary, and exactly `postpone`, `incoming`, `working`, `merged` when it
is binary. -/
theorem text_option_enumeration_exact (mime_is_binary : String → Bool)
    (conflict : svn_client_conflict)
    (h : conflict_text_conflicted conflict = true) :
    (svn_client_conflict_text_get_resolution_options mime_is_binary
        conflict).map
        (fun options => options.map (fun option => option.id)) =
      .ok
        (if (match svn_client_conflict_text_get_mime_type conflict with
             | some mime_type => mime_is_binary mime_type
             | none => false) then
           [.postpone, .incoming_text, .working_text, .merged_text]
         else
           [.postpone, .base_text, .incoming_text, .working_text,
            .incoming_text_where_conflicted, .working_text_where_conflicted,
            .merged_text]) := by
  unfold svn_client_conflict_text_get_resolution_options
  simp only [assert_text_conflict, h, if_true]
  cases hm : svn_client_conflict_text_get_mime_type conflict with
  | none => rfl
  | some mime_type =>
    by_cases hb : mime_is_binary mime_type <;>
      simp [hb, text_conflict_options, binary_conflict_options,
            Except.map]

/-- Witness for C6 at the binary fixture. -/
theorem text_option_enumeration_exact_witness :
    conflict_text_conflicted fixture_text_conflict = true ∧
      (svn_client_conflict_text_get_resolution_options (fun _ => true)
          fixture_text_conflict).map
          (fun options => options.map (fun option => option.id)) =
        .ok
          (if (match svn_client_conflict_text_get_mime_type
                       fixture_text_conflict with
               | some mime_type => (fun _ => true) mime_type
               | none => false) then
             [.postpone, .incoming_text, .working_text, .merged_text]
           else
             [.postpone, .base_text, .incoming_text, .working_text,
              .incoming_text_where_conflicted,
              .working_text_where_conflicted, .merged_text]) :=
  ⟨by decide, text_option_enumeration_exact (fun _ => true)
      fixture_text_conflict (by decide)⟩

/-- C5: tree-conflict option enumeration returns `postpone` and
`accept-current-wc-state` always, plus `update-move-destination` exactly
when the operation is update or switch, the local change is moved-away
and the incoming change is edit, plus `update-any-moved-away-children`
exactly when the operation is update or switch, the local change is
deleted or replaced, the incoming change is edit and the victim is a
directory; nothing else. -/
theorem tree_option_enumeration_exact (conflict : svn_client_conflict)
    (h : conflict_tree_conflicted conflict = true) :
    (svn_client_conflict_tree_get_resolution_options conflict).map
        (fun options => options.map (fun option => option.id)) =
      .ok
        ([.postpone, .accept_current_wc_state] ++
          (if (svn_client_conflict_get_operation conflict = .update ∨
               svn_client_conflict_get_operation conflict = .switch) ∧
              svn_client_conflict_get_local_change conflict = .moved_away ∧
              svn_client_conflict_get_incoming_change conflict = .edit then
             [svn_client_conflict_option_id.update_move_destination]
           else []) ++
          (if (svn_client_conflict_get_operation conflict = .update ∨
               svn_client_conflict_get_operation conflict = .switch) ∧
              (svn_client_conflict_get_local_change conflict = .deleted ∨
               svn_client_conflict_get_local_change conflict = .replaced) ∧
              svn_client_conflict_get_incoming_change conflict = .edit ∧
              svn_client_conflict_tree_get_victim_node_kind conflict = .dir
           then
             [svn_client_conflict_option_id.update_any_moved_away_children]
           else [])) := by
  unfold svn_client_conflict_tree_get_resolution_options
  simp only [assert_tree_conflict, h, if_true]
  generalize svn_client_conflict_get_operation conflict = operation
  generalize svn_client_conflict_get_local_change conflict = local_change
  generalize
    svn_client_conflict_get_incoming_change conflict = incoming_change
  generalize
    svn_client_conflict_tree_get_victim_node_kind conflict = node_kind
  revert operation local_change incoming_change node_kind
  decide

/-- Witness for C5: update × incoming edit × local moved-away on a
directory offers exactly postpone, accept-current-wc-state and
update-move-destination. -/
theorem tree_option_enumeration_exact_witness :
    conflict_tree_conflicted
        (fixture_tree_conflict .update .edit .moved_away .dir) = true ∧
      (svn_client_conflict_tree_get_resolution_options
          (fixture_tree_conflict .update .edit .moved_away .dir)).map
          (fun options => options.map (fun option => option.id)) =
        .ok
          ([.postpone, .accept_current_wc_state] ++
            (if (svn_client_conflict_get_operation
                   (fixture_tree_conflict .update .edit .moved_away .dir) =
                     .update ∨
                 svn_client_conflict_get_operation
                   (fixture_tree_conflict .update .edit .moved_away .dir) =
                     .switch) ∧
                svn_client_conflict_get_local_change
                  (fixture_tree_conflict .update .edit .moved_away .dir) =
                    .moved_away ∧
                svn_client_conflict_get_incoming_change
                  (fixture_tree_conflict .update .edit .moved_away .dir) =
                    .edit then
               [svn_client_conflict_option_id.update_move_destination]
             else []) ++
            (if (svn_client_conflict_get_operation
                   (fixture_tree_conflict .update .edit .moved_away .dir) =
                     .update ∨
                 svn_client_conflict_get_operation
                   (fixture_tree_conflict .update .edit .moved_away .dir) =
                     .switch) ∧
                (svn_client_conflict_get_local_change
                   (fixture_tree_conflict .update .edit .moved_away .dir) =
                     .deleted ∨
                 svn_client_conflict_get_local_change
                   (fixture_tree_conflict .update .edit .moved_away .dir) =
                     .replaced) ∧
                svn_client_conflict_get_incoming_change
                  (fixture_tree_conflict .update .edit .moved_away .dir) =
                    .edit ∧
                svn_client_conflict_tree_get_victim_node_kind
                  (fixture_tree_conflict .update .edit .moved_away .dir) =
                    .dir then
               [svn_client_conflict_option_id.update_any_moved_away_children]
             else [])) :=
  ⟨by decide, tree_option_enumeration_exact
      (fixture_tree_conflict .update .edit .moved_away .dir) (by decide)⟩

/-- The `accept_current_wc_state` option a tree conflict's enumeration
carries: its resolve function is `resolve_update_break_moved_away`
exactly in the update/switch × moved-away/deleted/replaced × incoming
edit situation. -/
lemma tree_options_find_accept (conflict : svn_client_conflict)
    (h : conflict_tree_conflicted conflict = true) :
    (svn_client_conflict_tree_get_resolution_options conflict).map
        (fun options =>
          svn_client_conflict_option_find_by_id options
            .accept_current_wc_state) =
      .ok
        (some
          { id := .accept_current_wc_state
            do_resolve_func :=
              if (svn_client_conflict_get_operation conflict = .update ∨
                  svn_client_conflict_get_operation conflict = .switch) ∧
                 (svn_client_conflict_get_local_change conflict =
                    .moved_away ∨
                  svn_client_conflict_get_local_change conflict = .deleted ∨
                  svn_client_conflict_get_local_change conflict =
                    .replaced) ∧
                 svn_client_conflict_get_incoming_change conflict = .edit
              then .resolve_update_break_moved_away
              else .resolve_accept_current_wc_state }) := by
  unfold svn_client_conflict_tree_get_resolution_options
  simp only [assert_tree_conflict, h, if_true]
  generalize svn_client_conflict_get_operation conflict = operation
  generalize svn_client_conflict_get_local_change conflict = local_change
  generalize
    svn_client_conflict_get_incoming_change conflict = incoming_change
  generalize
    svn_client_conflict_tree_get_victim_node_kind conflict = node_kind
  revert operation local_change incoming_change node_kind
  decide

/-- C2 counterexample: a tree conflict raised by a merge with local
change moved-away and incoming change edit.  The claim requires
accept-current-wc-state to substitute update-break-moved-away semantics
for it, but the code only does so under update/switch: here the option
resolves through `resolve_accept_current_wc_state` and the only store
mutation is the deletion of the tree-conflict marker. -/
theorem accept_current_wc_state_merge_counterexample :
    svn_client_conflict_get_local_change
        (fixture_tree_conflict .merge .edit .moved_away .dir) =
      .moved_away ∧
    svn_client_conflict_get_incoming_change
        (fixture_tree_conflict .merge .edit .moved_away .dir) = .edit ∧
    ((svn_client_conflict_tree_get_resolution_options
        (fixture_tree_conflict .merge .edit .moved_away .dir)).map
        (fun options =>
          (svn_client_conflict_option_find_by_id options
              .accept_current_wc_state).map
            (fun option => option.do_resolve_func)) =
      .ok (some .resolve_accept_current_wc_state)) ∧
    resolve_func_tag.resolve_accept_current_wc_state ≠
      .resolve_update_break_moved_away ∧
    (svn_client_conflict_tree_resolve_by_id fixture_store_ok
        (fixture_tree_conflict .merge .edit .moved_away .dir)
        .accept_current_wc_state).store_calls =
      [wc_store_call.del_tree_conflict] := by
  exact ⟨rfl, rfl, rfl, by decide, rfl⟩

/-- C2 (amended — the code additionally requires the operation to be
update or switch): for every tree conflict under update or switch whose
local change is moved-away, deleted or replaced and whose incoming
change is edit, resolving with accept-current-wc-state substitutes
update-break-moved-away semantics, mutating the store through
`update_break_moved_away`; for every other tree conflict it deletes the
tree-conflict marker only. -/
theorem accept_current_wc_state_substitution_amended
    (conflict : svn_client_conflict) (store : wc_store_outcomes)
    (h : conflict_tree_conflicted conflict = true)
    (hacq : store.acquire_write_lock_err = none) :
    (svn_client_conflict_tree_resolve_by_id store conflict
        .accept_current_wc_state).store_calls =
      (if (svn_client_conflict_get_operation conflict = .update ∨
           svn_client_conflict_get_operation conflict = .switch) ∧
          (svn_client_conflict_get_local_change conflict = .moved_away ∨
           svn_client_conflict_get_local_change conflict = .deleted ∨
           svn_client_conflict_get_local_change conflict = .replaced) ∧
          svn_client_conflict_get_incoming_change conflict = .edit then
         [wc_store_call.conflict_tree_update_break_moved_away]
       else [wc_store_call.del_tree_conflict]) := by
  have hfind := tree_options_find_accept conflict h
  unfold svn_client_conflict_tree_resolve_by_id
  cases henum : svn_client_conflict_tree_get_resolution_options conflict with
  | error e => rw [henum] at hfind; simp [Except.map] at hfind
  | ok options =>
    rw [henum] at hfind
    simp only [Except.map, Except.ok.injEq] at hfind
    have hremap : conflict_tree_remap_option_id conflict
        .accept_current_wc_state = .accept_current_wc_state := by
      simp [conflict_tree_remap_option_id]
    rw [hremap]
    dsimp only
    rw [hfind]
    unfold svn_client_conflict_tree_resolve
    simp only [assert_tree_conflict, h, if_true]
    by_cases hcond :
        (svn_client_conflict_get_operation conflict = .update ∨
         svn_client_conflict_get_operation conflict = .switch) ∧
        (svn_client_conflict_get_local_change conflict = .moved_away ∨
         svn_client_conflict_get_local_change conflict = .deleted ∨
         svn_client_conflict_get_local_change conflict = .replaced) ∧
        svn_client_conflict_get_incoming_change conflict = .edit
    · simp only [hcond, if_true, run_do_resolve_func,
                 resolve_update_break_moved_away, hacq]
      cases svn_error_compose_create store.break_moved_away_err
          store.release_write_lock_err <;> rfl
    · simp only [hcond, if_false, run_do_resolve_func,
                 resolve_accept_current_wc_state, hacq]
      cases svn_error_compose_create store.del_tree_conflict_err
          store.release_write_lock_err <;> rfl

/-- Witness for C2 (amended) at an update × moved-away × incoming-edit
conflict with a fully successful store. -/
theorem accept_current_wc_state_substitution_amended_witness :
    conflict_tree_conflicted
        (fixture_tree_conflict .update .edit .moved_away .dir) = true ∧
      fixture_store_ok.acquire_write_lock_err = none ∧
      (svn_client_conflict_tree_resolve_by_id fixture_store_ok
          (fixture_tree_conflict .update .edit .moved_away .dir)
          .accept_current_wc_state).store_calls =
        (if (svn_client_conflict_get_operation
               (fixture_tree_conflict .update .edit .moved_away .dir) =
                 .update ∨
             svn_client_conflict_get_operation
               (fixture_tree_conflict .update .edit .moved_away .dir) =
                 .switch) ∧
            (svn_client_conflict_get_local_change
               (fixture_tree_conflict .update .edit .moved_away .dir) =
                 .moved_away ∨
             svn_client_conflict_get_local_change
               (fixture_tree_conflict .update .edit .moved_away .dir) =
                 .deleted ∨
             svn_client_conflict_get_local_change
               (fixture_tree_conflict .update .edit .moved_away .dir) =
                 .replaced) ∧
            svn_client_conflict_get_incoming_change
              (fixture_tree_conflict .update .edit .moved_away .dir) =
                .edit then
           [wc_store_call.conflict_tree_update_break_moved_away]
         else [wc_store_call.del_tree_conflict]) :=
  ⟨by decide, rfl, accept_current_wc_state_substitution_amended
      (fixture_tree_conflict .update .edit .moved_away .dir)
      fixture_store_ok (by decide) rfl⟩

/-- C4: the legacy id `working-where-conflicted` on a tree conflict under
update or switch is remapped to `update-move-destination` when the local
change is moved-away, and to `update-any-moved-away-children` when the
local change is deleted or replaced with incoming edit on a directory
victim; legacy `merged` is remapped to `accept-current-wc-state`; an id
that after remapping is not among the conflict's enumerated options
fails with `SVN_ERR_CLIENT_CONFLICT_OPTION_NOT_APPLICABLE`. -/
theorem tree_resolve_by_id_legacy_remap (conflict : svn_client_conflict)
    (store : wc_store_outcomes)
    (h : conflict_tree_conflicted conflict = true) :
    ((svn_client_conflict_get_operation conflict = .update ∨
        svn_client_conflict_get_operation conflict = .switch) →
      svn_client_conflict_get_local_change conflict = .moved_away →
      conflict_tree_remap_option_id conflict
          .working_text_where_conflicted = .update_move_destination) ∧
    ((svn_client_conflict_get_operation conflict = .update ∨
        svn_client_conflict_get_operation conflict = .switch) →
      (svn_client_conflict_get_local_change conflict = .deleted ∨
       svn_client_conflict_get_local_change conflict = .replaced) →
      svn_client_conflict_get_incoming_change conflict = .edit →
      svn_client_conflict_tree_get_victim_node_kind conflict = .dir →
      conflict_tree_remap_option_id conflict
          .working_text_where_conflicted =
        .update_any_moved_away_children) ∧
    (conflict_tree_remap_option_id conflict .merged_text =
      .accept_current_wc_state) ∧
    (∀ option_id options,
      svn_client_conflict_tree_get_resolution_options conflict =
        .ok options →
      svn_client_conflict_option_find_by_id options
          (conflict_tree_remap_option_id conflict option_id) = none →
      svn_client_conflict_tree_resolve_by_id store conflict option_id =
        ⟨some .client_conflict_option_not_applicable, conflict, []⟩) := by
  refine ⟨?_, ?_, ?_, ?_⟩
  · intro hop hlc
    rcases hop with hop | hop <;> simp [conflict_tree_remap_option_id, hop, hlc]
  · intro hop hlc hic hnk
    have hne : svn_client_conflict_get_local_change conflict ≠ .moved_away :=
      by rcases hlc with hlc | hlc <;> simp [hlc]
    rcases hop with hop | hop <;>
      rcases hlc with hlc | hlc <;>
        simp [conflict_tree_remap_option_id, hop, hlc, hic, hnk]
  · simp [conflict_tree_remap_option_id]
  · intro option_id options henum hfind
    unfold svn_client_conflict_tree_resolve_by_id
    rw [henum]
    dsimp only
    rw [hfind]

/-- Witness for C4: under update with local moved-away, the legacy id
`working-where-conflicted` remaps to `update-move-destination`. -/
theorem tree_resolve_by_id_legacy_remap_witness :
    conflict_tree_conflicted
        (fixture_tree_conflict .update .edit .moved_away .dir) = true ∧
      conflict_tree_remap_option_id
          (fixture_tree_conflict .update .edit .moved_away .dir)
          .working_text_where_conflicted = .update_move_destination :=
  ⟨by decide,
    (tree_resolve_by_id_legacy_remap
        (fixture_tree_conflict .update .edit .moved_away .dir)
        fixture_store_ok (by decide)).1 (Or.inl (by decide)) (by decide)⟩

lemma alist_get_set_self {α : Type} (l : List (String × α)) (key : String)
    (val : α) : alist_get (alist_set l key val) key = some val := by
  induction l with
  | nil => simp [alist_set, alist_get]
  | cons head rest ih =>
    obtain ⟨k, v⟩ := head
    by_cases hk : k = key <;> simp [alist_set, alist_get, hk, ih]

lemma alist_get_set_ne {α : Type} (l : List (String × α)) (key key' : String)
    (val : α) (hne : key' ≠ key) :
    alist_get (alist_set l key val) key' = alist_get l key' := by
  induction l with
  | nil => simp [alist_set, alist_get, Ne.symm hne]
  | cons head rest ih =>
    obtain ⟨k, v⟩ := head
    by_cases hk : k = key
    · subst hk
      simp [alist_set, alist_get, Ne.symm hne]
    · by_cases hk' : k = key' <;>
        simp [alist_set, alist_get, hk, hk', ih, hne, Ne.symm hne]

lemma alist_fold_set_preserves {α β : Type}
    (entries : List (String × β)) (resolved : List (String × α)) (val : α)
    (name : String) (h : alist_get resolved name = some val) :
    alist_get
        (entries.foldl (fun resolved entry => alist_set resolved entry.1 val)
          resolved) name = some val := by
  induction entries generalizing resolved with
  | nil => simpa using h
  | cons entry rest ih =>
    simp only [List.foldl_cons]
    apply ih
    by_cases he : name = entry.1
    · rw [he]; exact alist_get_set_self resolved entry.1 val
    · rw [alist_get_set_ne resolved entry.1 name val he]; exact h

lemma alist_fold_set_mem {α β : Type}
    (entries : List (String × β)) (resolved : List (String × α)) (val : α)
    (name : String) (h : name ∈ entries.map Prod.fst) :
    alist_get
        (entries.foldl (fun resolved entry => alist_set resolved entry.1 val)
          resolved) name = some val := by
  induction entries generalizing resolved with
  | nil => simp at h
  | cons entry rest ih =>
    simp only [List.map_cons, List.mem_cons] at h
    simp only [List.foldl_cons]
    rcases h with h | h
    · apply alist_fold_set_preserves
      rw [h]
      exact alist_get_set_self resolved entry.1 val
    · exact ih _ h

/-- Running `resolve_prop_conflict` with the empty property name against
a fully successful store: all property conflicts move to
`resolved_props`, bound to the chosen option. -/
lemma prop_resolve_empty_propname (store : wc_store_outcomes)
    (conflict : svn_client_conflict) (option : svn_client_conflict_option)
    (hassert : conflict_props_conflicted conflict ≠ [])
    (hfunc : option.do_resolve_func = .resolve_prop_conflict)
    (hacq : store.acquire_write_lock_err = none)
    (hmark : store.prop_mark_resolved_err = none)
    (hrel : store.release_write_lock_err = none) :
    svn_client_conflict_prop_resolve store conflict "" option =
      ⟨none,
        { conflict with
            resolved_props :=
              conflict.prop_conflicts.foldl
                (fun resolved entry =>
                  alist_set resolved entry.1
                    { option with prop_propname := "" })
                conflict.resolved_props
            prop_conflicts := []
            legacy_prop_conflict_propname := none },
        [wc_store_call.conflict_prop_mark_resolved ""
          (conflict_option_id_to_wc_conflict_choice option.id)]⟩ := by
  unfold svn_client_conflict_prop_resolve
  simp only [assert_prop_conflict, if_pos hassert]
  unfold run_do_resolve_func
  simp only [hfunc]
  unfold resolve_prop_conflict
  simp [hacq, hmark, hrel, svn_error_compose_create]

/-- Resolving by id with the empty property name, for any option id whose
entry in `prop_conflict_options[]` resolves through
`resolve_prop_conflict`: the chosen option is recorded for every
previously conflicted property and the conflicted list becomes empty. -/
lemma prop_resolve_by_id_empty_propname (store : wc_store_outcomes)
    (conflict : svn_client_conflict)
    (option_id : svn_client_conflict_option_id)
    (hconf : conflict_props_conflicted conflict ≠ [])
    (hacq : store.acquire_write_lock_err = none)
    (hmark : store.prop_mark_resolved_err = none)
    (hrel : store.release_write_lock_err = none)
    (hfind : svn_client_conflict_option_find_by_id prop_conflict_options
        option_id =
      some { id := option_id, do_resolve_func := .resolve_prop_conflict }) :
    (svn_client_conflict_prop_resolve_by_id store conflict ""
        option_id).err = none ∧
    conflict_props_conflicted
        (svn_client_conflict_prop_resolve_by_id store conflict ""
          option_id).conflict = [] ∧
    ∀ name ∈ conflict_props_conflicted conflict,
      svn_client_conflict_prop_get_resolution
          (svn_client_conflict_prop_resolve_by_id store conflict ""
            option_id).conflict name = option_id := by
  unfold svn_client_conflict_prop_resolve_by_id
  unfold svn_client_conflict_prop_get_resolution_options
  simp only [assert_prop_conflict, if_pos hconf]
  rw [hfind]
  dsimp only
  rw [prop_resolve_empty_propname store conflict _ hconf rfl hacq hmark hrel]
  refine ⟨rfl, rfl, ?_⟩
  intro name hname
  unfold svn_client_conflict_prop_get_resolution
  rw [alist_fold_set_mem conflict.prop_conflicts
        conflict.resolved_props _ name hname]

/-- C7: for a conflict with one or more named property conflicts,
resolving with the empty property name `""` and a choice option applies
that choice to every currently conflicted property: afterwards the
conflicted-property list is empty and `prop_get_resolution` returns the
chosen option id for each previously conflicted property name. -/
theorem prop_resolve_all_properties (store : wc_store_outcomes)
    (conflict : svn_client_conflict)
    (option_id : svn_client_conflict_option_id)
    (hconf : conflict_props_conflicted conflict ≠ [])
    (hacq : store.acquire_write_lock_err = none)
    (hmark : store.prop_mark_resolved_err = none)
    (hrel : store.release_write_lock_err = none)
    (hid : option_id ∈
      [svn_client_conflict_option_id.base_text, .incoming_text,
       .working_text, .incoming_text_where_conflicted,
       .working_text_where_conflicted, .merged_text]) :
    (svn_client_conflict_prop_resolve_by_id store conflict ""
        option_id).err = none ∧
    conflict_props_conflicted
        (svn_client_conflict_prop_resolve_by_id store conflict ""
          option_id).conflict = [] ∧
    ∀ name ∈ conflict_props_conflicted conflict,
      svn_client_conflict_prop_get_resolution
          (svn_client_conflict_prop_resolve_by_id store conflict ""
            option_id).conflict name = option_id := by
  simp only [List.mem_cons, List.not_mem_nil, or_false] at hid
  rcases hid with rfl | rfl | rfl | rfl | rfl | rfl <;>
    exact prop_resolve_by_id_empty_propname store conflict _ hconf hacq
      hmark hrel rfl

/-- Witness for C7: two conflicted properties, resolved with
`incoming_text` and the empty property name. -/
theorem prop_resolve_all_properties_witness :
    conflict_props_conflicted fixture_prop_conflict ≠ [] ∧
      (svn_client_conflict_prop_resolve_by_id fixture_store_ok
          fixture_prop_conflict "" .incoming_text).err = none ∧
      conflict_props_conflicted
          (svn_client_conflict_prop_resolve_by_id fixture_store_ok
            fixture_prop_conflict "" .incoming_text).conflict = [] ∧
      ∀ name ∈ conflict_props_conflicted fixture_prop_conflict,
        svn_client_conflict_prop_get_resolution
            (svn_client_conflict_prop_resolve_by_id fixture_store_ok
              fixture_prop_conflict "" .incoming_text).conflict name =
          .incoming_text :=
  ⟨by decide,
    prop_resolve_all_properties fixture_store_ok fixture_prop_conflict
      .incoming_text (by decide) rfl rfl rfl (by decide)⟩

/-! Accessor values only depend on the legacy descriptors, so updating
the function-pointer fields of a conflict leaves them unchanged. -/

@[simp] lemma tree_conflicted_update_desc_func
    (c : svn_client_conflict) (d : Option description_func_tag) :
    conflict_tree_conflicted
        { c with tree_conflict_get_description_func := d } =
      conflict_tree_conflicted c := rfl

@[simp] lemma get_operation_update_desc_func
    (c : svn_client_conflict) (d : Option description_func_tag) :
    svn_client_conflict_get_operation
        { c with tree_conflict_get_description_func := d } =
      svn_client_conflict_get_operation c := rfl

@[simp] lemma get_incoming_change_update_desc_func
    (c : svn_client_conflict) (d : Option description_func_tag) :
    svn_client_conflict_get_incoming_change
        { c with tree_conflict_get_description_func := d } =
      svn_client_conflict_get_incoming_change c := rfl

/-- `conflict_type_specific_setup`, written as a function of the original
conflict's accessor values. -/
lemma conflict_type_specific_setup_eq (c : svn_client_conflict) :
    conflict_type_specific_setup c =
      if conflict_tree_conflicted c = false then c
      else if svn_client_conflict_get_incoming_change c = .delete ∧
              (svn_client_conflict_get_operation c = .update ∨
               svn_client_conflict_get_operation c = .switch) then
        { c with
            tree_conflict_get_description_func := some .incoming_delete
            tree_conflict_get_details_func := some .incoming_delete }
      else
        { c with tree_conflict_get_description_func := some .generic } := by
  unfold conflict_type_specific_setup
  by_cases ht : conflict_tree_conflicted c = false
  · simp [ht]
  · simp only [ht, if_false]
    by_cases hc : svn_client_conflict_get_incoming_change c = .delete ∧
        (svn_client_conflict_get_operation c = .update ∨
         svn_client_conflict_get_operation c = .switch)
    · simp only [get_incoming_change_update_desc_func,
                 get_operation_update_desc_func, hc, if_true]
    · simp only [get_incoming_change_update_desc_func,
                 get_operation_update_desc_func, hc, if_false]

/-- `add_legacy_desc_to_conflict` never touches the function-pointer,
details or resolution fields. -/
lemma foldl_add_legacy_preserves (descs : List svn_wc_conflict_description2)
    (init : svn_client_conflict) :
    (descs.foldl add_legacy_desc_to_conflict init).tree_conflict_get_details_func
        = init.tree_conflict_get_details_func ∧
    (descs.foldl add_legacy_desc_to_conflict init).tree_conflict_details =
        init.tree_conflict_details ∧
    (descs.foldl add_legacy_desc_to_conflict init).resolution_text =
        init.resolution_text ∧
    (descs.foldl add_legacy_desc_to_conflict init).resolution_tree =
        init.resolution_tree ∧
    (descs.foldl add_legacy_desc_to_conflict init).resolved_props =
        init.resolved_props := by
  induction descs generalizing init with
  | nil => exact ⟨rfl, rfl, rfl, rfl, rfl⟩
  | cons desc rest ih =>
    simp only [List.foldl_cons]
    have hstep : (add_legacy_desc_to_conflict init desc).tree_conflict_get_details_func
          = init.tree_conflict_get_details_func ∧
        (add_legacy_desc_to_conflict init desc).tree_conflict_details =
          init.tree_conflict_details ∧
        (add_legacy_desc_to_conflict init desc).resolution_text =
          init.resolution_text ∧
        (add_legacy_desc_to_conflict init desc).resolution_tree =
          init.resolution_tree ∧
        (add_legacy_desc_to_conflict init desc).resolved_props =
          init.resolved_props := by
      unfold add_legacy_desc_to_conflict
      cases desc.kind <;> exact ⟨rfl, rfl, rfl, rfl, rfl⟩
    obtain ⟨h1, h2, h3, h4, h5⟩ := ih (add_legacy_desc_to_conflict init desc)
    obtain ⟨g1, g2, g3, g4, g5⟩ := hstep
    exact ⟨h1.trans g1, h2.trans g2, h3.trans g3, h4.trans g4, h5.trans g5⟩

@[simp] lemma tree_conflicted_update_both_funcs
    (c : svn_client_conflict) (d : Option description_func_tag)
    (e : Option details_func_tag) :
    conflict_tree_conflicted
        { c with tree_conflict_get_description_func := d
                 tree_conflict_get_details_func := e } =
      conflict_tree_conflicted c := rfl

@[simp] lemma get_operation_update_both_funcs
    (c : svn_client_conflict) (d : Option description_func_tag)
    (e : Option details_func_tag) :
    svn_client_conflict_get_operation
        { c with tree_conflict_get_description_func := d
                 tree_conflict_get_details_func := e } =
      svn_client_conflict_get_operation c := rfl

@[simp] lemma details_func_update_desc_func
    (c : svn_client_conflict) (d : Option description_func_tag) :
    ({ c with tree_conflict_get_description_func := d } :
        svn_client_conflict).tree_conflict_get_details_func =
      c.tree_conflict_get_details_func := rfl

@[simp] lemma tree_details_update_desc_func
    (c : svn_client_conflict) (d : Option description_func_tag) :
    ({ c with tree_conflict_get_description_func := d } :
        svn_client_conflict).tree_conflict_details =
      c.tree_conflict_details := rfl

@[simp] lemma tree_details_update_both_funcs
    (c : svn_client_conflict) (d : Option description_func_tag)
    (e : Option details_func_tag) :
    ({ c with tree_conflict_get_description_func := d
              tree_conflict_get_details_func := e } :
        svn_client_conflict).tree_conflict_details =
      c.tree_conflict_details := rfl

/-- C9: for a conflict whose incoming change is delete under operation
merge, details enrichment does not run: construction attaches no details
fetcher, the details stay absent, and `tree_get_details` succeeds while
issuing no RA call and leaving every field of the conflict unchanged. -/
theorem merge_incoming_delete_no_enrichment (oracle : ra_session_oracle)
    (local_abspath : String) (descs : List svn_wc_conflict_description2)
    (htree : conflict_tree_conflicted
        (conflict_get_internal local_abspath descs) = true)
    (hdel : svn_client_conflict_get_incoming_change
        (conflict_get_internal local_abspath descs) = .delete)
    (hmerge : svn_client_conflict_get_operation
        (conflict_get_internal local_abspath descs) = .merge) :
    (conflict_get_internal local_abspath
          descs).tree_conflict_get_details_func = none ∧
    (conflict_get_internal local_abspath descs).tree_conflict_details =
      none ∧
    svn_client_conflict_tree_get_details oracle
        (conflict_get_internal local_abspath descs) =
      ⟨none, conflict_get_internal local_abspath descs, []⟩ := by
  have hpres := foldl_add_legacy_preserves descs
    { local_abspath := local_abspath, resolution_text := .unspecified,
      resolution_tree := .unspecified, resolved_props := [] }
  unfold conflict_get_internal at htree hdel hmerge ⊢
  rw [conflict_type_specific_setup_eq] at htree hdel hmerge ⊢
  set base := descs.foldl add_legacy_desc_to_conflict
    { local_abspath := local_abspath, resolution_text := .unspecified,
      resolution_tree := .unspecified, resolved_props := [] } with hbase
  by_cases ht : conflict_tree_conflicted base = false
  · rw [if_pos ht] at htree
    rw [htree] at ht
    exact absurd ht (by decide)
  · rw [if_neg ht] at htree hdel hmerge ⊢
    by_cases hc : svn_client_conflict_get_incoming_change base = .delete ∧
        (svn_client_conflict_get_operation base = .update ∨
         svn_client_conflict_get_operation base = .switch)
    · rw [if_pos hc] at hmerge
      rw [get_operation_update_both_funcs] at hmerge
      rcases hc.2 with hop | hop <;> rw [hmerge] at hop <;>
        exact absurd hop (by decide)
    · rw [if_neg hc] at htree ⊢
      have hbf : base.tree_conflict_get_details_func = none := hpres.1
      have hbd : base.tree_conflict_details = none := hpres.2.1
      refine ⟨by rw [details_func_update_desc_func]; exact hbf,
              by rw [tree_details_update_desc_func]; exact hbd, ?_⟩
      unfold svn_client_conflict_tree_get_details
      simp only [assert_tree_conflict, htree, if_true]
      rw [hbf]

/-- Witness for C9: a tree conflict raised by a merge whose incoming
change is a delete. -/
theorem merge_incoming_delete_no_enrichment_witness :
    conflict_tree_conflicted
        (conflict_get_internal "/wc/a.txt"
          [fixture_tree_desc .merge .delete .edited .file]) = true ∧
      svn_client_conflict_tree_get_details fixture_oracle
          (conflict_get_internal "/wc/a.txt"
            [fixture_tree_desc .merge .delete .edited .file]) =
        ⟨none,
          conflict_get_internal "/wc/a.txt"
            [fixture_tree_desc .merge .delete .edited .file], []⟩ :=
  ⟨by decide,
    (merge_incoming_delete_no_enrichment fixture_oracle "/wc/a.txt"
        [fixture_tree_desc .merge .delete .edited .file] (by decide)
        (by decide) (by decide)).2.2⟩

/-- A conflict object for a path whose conflict markers are all cleared:
the store reports no conflict descriptors. -/
def fixture_clean_conflict : svn_client_conflict :=
  conflict_get_internal "/wc/clean.txt" []

/-- C8 counterexample: resolving a working-copy path that is not
conflicted is claimed to be a success no-op; the code's
`assert_text_conflict` (`SVN_ERR_ASSERT(text_conflicted)`) instead makes
`svn_client_conflict_text_resolve` fail with an assertion error. -/
theorem resolve_nonconflicted_counterexample :
    conflict_text_conflicted fixture_clean_conflict = false ∧
      (svn_client_conflict_text_resolve fixture_store_ok
          fixture_clean_conflict
          { id := .working_text,
            do_resolve_func := .resolve_text_conflict }).err =
        some .assertion_fail ∧
      (svn_client_conflict_text_resolve fixture_store_ok
          fixture_clean_conflict
          { id := .working_text,
            do_resolve_func := .resolve_text_conflict }).err ≠ none := by
  exact ⟨rfl, rfl, by decide⟩

/-- C8 (amended): resolving a path that is not text-conflicted fails with
an assertion error and issues no store call, rather than succeeding;
re-resolving an already-resolved conflict object with the same option
does return success and leaves the recorded resolution unchanged, but it
re-issues the store mark-resolved call instead of being a pure no-op. -/
theorem text_resolve_idempotence_amended (store : wc_store_outcomes)
    (conflict : svn_client_conflict)
    (option : svn_client_conflict_option) :
    (conflict_text_conflicted conflict = false →
      svn_client_conflict_text_resolve store conflict option =
        ⟨some .assertion_fail, conflict, []⟩) ∧
    (conflict_text_conflicted conflict = true →
      option.do_resolve_func = .resolve_text_conflict →
      store.acquire_write_lock_err = none →
      store.text_mark_resolved_err = none →
      store.release_write_lock_err = none →
      (svn_client_conflict_text_resolve store conflict option).err =
          none ∧
        (svn_client_conflict_text_resolve store
            (svn_client_conflict_text_resolve store conflict
              option).conflict option).err = none ∧
        (svn_client_conflict_text_resolve store
            (svn_client_conflict_text_resolve store conflict
              option).conflict option).conflict =
          (svn_client_conflict_text_resolve store conflict
            option).conflict ∧
        (svn_client_conflict_text_resolve store
            (svn_client_conflict_text_resolve store conflict
              option).conflict option).store_calls =
          (svn_client_conflict_text_resolve store conflict
            option).store_calls) := by
  constructor
  · intro h
    unfold svn_client_conflict_text_resolve
    simp [assert_text_conflict, h]
  · intro htext hfunc hacq hmark hrel
    unfold svn_client_conflict_text_resolve
    unfold run_do_resolve_func
    simp only [hfunc]
    unfold resolve_text_conflict
    simp only [hacq, hmark, hrel, svn_error_compose_create]
    simp only [assert_text_conflict, conflict_text_conflicted] at htext ⊢
    simp [htext]

/-- Witness for C8 (amended) at the cleared-path fixture. -/
theorem text_resolve_idempotence_amended_witness :
    conflict_text_conflicted fixture_clean_conflict = false ∧
      svn_client_conflict_text_resolve fixture_store_ok
          fixture_clean_conflict
          { id := .working_text,
            do_resolve_func := .resolve_text_conflict } =
        ⟨some .assertion_fail, fixture_clean_conflict, []⟩ :=
  ⟨by decide,
    (text_resolve_idempotence_amended fixture_store_ok
        fixture_clean_conflict
        { id := .working_text,
          do_resolve_func := .resolve_text_conflict }).1 (by decide)⟩

lemma svn_error_compose_create_eq_none (a b : Option svn_error_kind) :
    svn_error_compose_create a b = none ↔ a = none ∧ b = none := by
  cases a <;> simp [svn_error_compose_create]

/-- `find_added_rev` keeps the last delivered non-gap segment, which is
the first non-gap segment in chronological (oldest-first) order. -/
lemma run_find_added_rev_added_rev (segments : List svn_location_segment)
    (details : conflict_tree_incoming_delete_details) :
    (run_find_added_rev segments details).added_rev =
      match segments.reverse.find? (fun segment => segment.path.isSome) with
      | some segment => segment.range_start
      | none => details.added_rev := by
  induction segments generalizing details with
  | nil => rfl
  | cons segment rest ih =>
    simp only [run_find_added_rev, List.foldl_cons, List.reverse_cons,
               List.find?_append]
    rw [show (rest.foldl
          (fun details segment =>
            match segment.path with
            | some path =>
                { details with added_rev := segment.range_start
                               repos_relpath := path }
            | none => details)
          (match segment.path with
           | some path =>
               { details with added_rev := segment.range_start
                              repos_relpath := path }
           | none => details)) =
        run_find_added_rev rest
          (match segment.path with
           | some path =>
               { details with added_rev := segment.range_start
                              repos_relpath := path }
           | none => details) from rfl]
    rw [ih]
    cases hfind : rest.reverse.find? (fun segment => segment.path.isSome) with
    | some found => simp
    | none =>
      cases hpath : segment.path with
      | some path => simp [List.find?, hpath]
      | none => simp [List.find?, hpath]

/-- `run_find_added_rev` starting from the `apr_pcalloc`-zeroed details
records exactly `first_history_added_rev`. -/
lemma run_find_added_rev_pcalloc (segments : List svn_location_segment) :
    (run_find_added_rev segments pcalloc_details).added_rev =
      first_history_added_rev segments := by
  rw [run_find_added_rev_added_rev]
  rfl

lemma first_history_added_rev_nonneg (segments : List svn_location_segment)
    (h : ∀ segment ∈ segments, 0 ≤ segment.range_start) :
    0 ≤ first_history_added_rev segments := by
  unfold first_history_added_rev
  cases hfind : segments.reverse.find?
      (fun segment => segment.path.isSome) with
  | none => decide
  | some segment =>
    exact h segment (List.mem_reverse.mp (List.mem_of_find?_eq_some hfind))

/-- The changed-paths scan of `find_deleted_rev` either leaves the baton
alone and succeeds, or records the log revision and raises
`SVN_ERR_CANCELLED`. -/
lemma find_deleted_rev_scan_paths_cases (oracle : ra_session_oracle)
    (b : find_deleted_rev_baton) (log_revision : Int)
    (items : List svn_log_changed_path) :
    find_deleted_rev_scan_paths oracle b log_revision items = (b, none) ∨
    find_deleted_rev_scan_paths oracle b log_revision items =
      ({ b with deleted_rev := log_revision }, some .cancelled) := by
  induction items with
  | nil => exact Or.inl rfl
  | cons item rest ih =>
    unfold find_deleted_rev_scan_paths
    dsimp only
    by_cases hmatch : log_path_canonicalize item.path =
        b.deleted_repos_relpath ∧ (item.action = 'D' ∨ item.action = 'R')
    · rw [if_pos hmatch]
      by_cases hyca : oracle.yca_exists b.related_repos_relpath
          b.related_repos_peg_rev b.deleted_repos_relpath
          (log_revision - 1) = true
      · rw [if_pos hyca]
        exact Or.inr rfl
      · rw [if_neg hyca]
        exact ih
    · rw [if_neg hmatch]
      exact ih

/-- `find_deleted_rev` on one log entry: baton unchanged on success, or
`deleted_rev := entry.revision` with `SVN_ERR_CANCELLED`. -/
lemma find_deleted_rev_cases (oracle : ra_session_oracle)
    (b : find_deleted_rev_baton) (log_entry : svn_log_entry) :
    find_deleted_rev oracle b log_entry = (b, none) ∨
    find_deleted_rev oracle b log_entry =
      ({ b with deleted_rev := log_entry.revision }, some .cancelled) := by
  unfold find_deleted_rev
  cases log_entry.changed_paths2 with
  | none => exact Or.inl rfl
  | some items =>
    exact find_deleted_rev_scan_paths_cases oracle b log_entry.revision items

/-- The log scan either returns the initial baton with no error, or stops
at some delivered entry with `SVN_ERR_CANCELLED` and that entry's
revision recorded. -/
lemma run_find_deleted_rev_cases (oracle : ra_session_oracle)
    (b : find_deleted_rev_baton) (entries : List svn_log_entry) :
    run_find_deleted_rev oracle b entries = (b, none) ∨
    ∃ log_entry ∈ entries,
      run_find_deleted_rev oracle b entries =
        ({ b with deleted_rev := log_entry.revision }, some .cancelled) := by
  induction entries with
  | nil => exact Or.inl rfl
  | cons log_entry rest ih =>
    unfold run_find_deleted_rev
    rcases find_deleted_rev_cases oracle b log_entry with hstep | hstep <;>
      rw [hstep]
    · rcases ih with ih | ⟨found, hmem, ih⟩
      · exact Or.inl ih
      · exact Or.inr ⟨found, List.mem_cons_of_mem _ hmem, ih⟩
    · exact Or.inr ⟨log_entry, List.mem_cons_self _ _, rfl⟩

/-- `conflict_type_specific_setup` never touches the resolution fields. -/
lemma setup_preserves_resolutions (c : svn_client_conflict) :
    (conflict_type_specific_setup c).resolution_text = c.resolution_text ∧
    (conflict_type_specific_setup c).resolution_tree = c.resolution_tree ∧
    (conflict_type_specific_setup c).resolved_props = c.resolved_props := by
  rw [conflict_type_specific_setup_eq]
  split
  · exact ⟨rfl, rfl, rfl⟩
  · split <;> exact ⟨rfl, rfl, rfl⟩

/-- C10: for text, property and tree conflict resolution, the conflict
object's recorded resolution is updated only after the store mutation
and the write-lock release have both succeeded; if either fails (or the
lock cannot be acquired), the error is returned and the conflict object
is unchanged; and a freshly constructed conflict reports the unspecified
resolution for text, tree and every property. -/
theorem resolution_recorded_only_after_success :
    (∀ local_abspath descs,
      (conflict_get_internal local_abspath descs).resolution_text =
          .unspecified ∧
      (conflict_get_internal local_abspath descs).resolution_tree =
          .unspecified ∧
      ∀ name, svn_client_conflict_prop_get_resolution
          (conflict_get_internal local_abspath descs) name =
        .unspecified) ∧
    (∀ store option conflict,
      ((resolve_text_conflict store option conflict).err.isSome →
        (resolve_text_conflict store option conflict).conflict =
          conflict) ∧
      ((resolve_text_conflict store option conflict).err = none →
        store.acquire_write_lock_err = none ∧
        store.text_mark_resolved_err = none ∧
        store.release_write_lock_err = none ∧
        (resolve_text_conflict store option conflict).conflict =
          { conflict with resolution_text := option.id })) ∧
    (∀ store option conflict,
      ((resolve_prop_conflict store option conflict).err.isSome →
        (resolve_prop_conflict store option conflict).conflict =
          conflict) ∧
      ((resolve_prop_conflict store option conflict).err = none →
        store.acquire_write_lock_err = none ∧
        store.prop_mark_resolved_err = none ∧
        store.release_write_lock_err = none)) ∧
    (∀ store option conflict,
      ((resolve_accept_current_wc_state store option conflict).err.isSome →
        (resolve_accept_current_wc_state store option conflict).conflict =
          conflict) ∧
      ((resolve_accept_current_wc_state store option conflict).err =
          none →
        store.acquire_write_lock_err = none ∧
        store.del_tree_conflict_err = none ∧
        store.release_write_lock_err = none ∧
        (resolve_accept_current_wc_state store option conflict).conflict =
          { conflict with resolution_tree := option.id })) ∧
    (∀ store option conflict,
      ((resolve_update_break_moved_away store option
          conflict).err.isSome →
        (resolve_update_break_moved_away store option conflict).conflict =
          conflict) ∧
      ((resolve_update_break_moved_away store option conflict).err =
          none →
        store.acquire_write_lock_err = none ∧
        store.break_moved_away_err = none ∧
        store.release_write_lock_err = none ∧
        (resolve_update_break_moved_away store option
            conflict).conflict =
          { conflict with resolution_tree := option.id })) ∧
    (∀ store option conflict,
      ((resolve_update_raise_moved_away store option
          conflict).err.isSome →
        (resolve_update_raise_moved_away store option conflict).conflict =
          conflict) ∧
      ((resolve_update_raise_moved_away store option conflict).err =
          none →
        store.acquire_write_lock_err = none ∧
        store.raise_moved_away_err = none ∧
        store.release_write_lock_err = none ∧
        (resolve_update_raise_moved_away store option
            conflict).conflict =
          { conflict with resolution_tree := option.id })) ∧
    (∀ store option conflict,
      ((resolve_update_moved_away_node store option
          conflict).err.isSome →
        (resolve_update_moved_away_node store option conflict).conflict =
          conflict) ∧
      ((resolve_update_moved_away_node store option conflict).err =
          none →
        store.acquire_write_lock_err = none ∧
        store.moved_away_node_err = none ∧
        store.release_write_lock_err = none ∧
        (resolve_update_moved_away_node store option
            conflict).conflict =
          { conflict with resolution_tree := option.id })) := by
  refine ⟨?_, ?_, ?_, ?_, ?_, ?_, ?_⟩
  · intro local_abspath descs
    have hpres := foldl_add_legacy_preserves descs
      { local_abspath := local_abspath, resolution_text := .unspecified,
        resolution_tree := .unspecified, resolved_props := [] }
    have hsetup := setup_preserves_resolutions
      (descs.foldl add_legacy_desc_to_conflict
        { local_abspath := local_abspath, resolution_text := .unspecified,
          resolution_tree := .unspecified, resolved_props := [] })
    unfold conflict_get_internal
    refine ⟨hsetup.1.trans hpres.2.2.1, hsetup.2.1.trans hpres.2.2.2.1, ?_⟩
    intro name
    unfold svn_client_conflict_prop_get_resolution
    rw [hsetup.2.2, hpres.2.2.2.2]
    rfl
  · intro store option conflict
    unfold resolve_text_conflict
    cases hacq : store.acquire_write_lock_err <;>
      cases hmark : store.text_mark_resolved_err <;>
        cases hrel : store.release_write_lock_err <;>
          simp [svn_error_compose_create, hacq, hmark, hrel]
  · intro store option conflict
    unfold resolve_prop_conflict
    by_cases hpn : option.prop_propname = "" <;>
      cases hacq : store.acquire_write_lock_err <;>
        cases hmark : store.prop_mark_resolved_err <;>
          cases hrel : store.release_write_lock_err <;>
            simp [svn_error_compose_create, hacq, hmark, hrel, hpn]
  · intro store option conflict
    unfold resolve_accept_current_wc_state
    by_cases hid : option.id = .accept_current_wc_state <;>
      cases hacq : store.acquire_write_lock_err <;>
        cases hdel : store.del_tree_conflict_err <;>
          cases hrel : store.release_write_lock_err <;>
            simp [svn_error_compose_create, hacq, hdel, hrel, hid]
  · intro store option conflict
    unfold resolve_update_break_moved_away
    cases hacq : store.acquire_write_lock_err <;>
      cases hbrk : store.break_moved_away_err <;>
        cases hrel : store.release_write_lock_err <;>
          simp [svn_error_compose_create, hacq, hbrk, hrel]
  · intro store option conflict
    unfold resolve_update_raise_moved_away
    cases hacq : store.acquire_write_lock_err <;>
      cases hraise : store.raise_moved_away_err <;>
        cases hrel : store.release_write_lock_err <;>
          simp [svn_error_compose_create, hacq, hraise, hrel]
  · intro store option conflict
    unfold resolve_update_moved_away_node
    cases hacq : store.acquire_write_lock_err <;>
      cases hmove : store.moved_away_node_err <;>
        cases hrel : store.release_write_lock_err <;>
          simp [svn_error_compose_create, hacq, hmove, hrel]

/-- Construction attaches the incoming-delete details fetcher to tree
conflicts with incoming delete under update or switch. -/
lemma construction_attaches_incoming_delete_fetcher
    (local_abspath : String) (descs : List svn_wc_conflict_description2)
    (htree : conflict_tree_conflicted
        (conflict_get_internal local_abspath descs) = true)
    (hdel : svn_client_conflict_get_incoming_change
        (conflict_get_internal local_abspath descs) = .delete)
    (hop : svn_client_conflict_get_operation
          (conflict_get_internal local_abspath descs) = .update ∨
        svn_client_conflict_get_operation
          (conflict_get_internal local_abspath descs) = .switch) :
    (conflict_get_internal local_abspath
        descs).tree_conflict_get_details_func = some .incoming_delete ∧
    (conflict_get_internal local_abspath descs).tree_conflict_details =
      none := by
  have hpres := foldl_add_legacy_preserves descs
    { local_abspath := local_abspath, resolution_text := .unspecified,
      resolution_tree := .unspecified, resolved_props := [] }
  unfold conflict_get_internal at htree hdel hop ⊢
  rw [conflict_type_specific_setup_eq] at htree hdel hop ⊢
  set base := descs.foldl add_legacy_desc_to_conflict
    { local_abspath := local_abspath, resolution_text := .unspecified,
      resolution_tree := .unspecified, resolved_props := [] } with hbase
  by_cases ht : conflict_tree_conflicted base = false
  · rw [if_pos ht] at htree
    rw [htree] at ht
    exact absurd ht (by decide)
  · rw [if_neg ht] at hdel hop ⊢
    by_cases hc : svn_client_conflict_get_incoming_change base = .delete ∧
        (svn_client_conflict_get_operation base = .update ∨
         svn_client_conflict_get_operation base = .switch)
    · rw [if_pos hc]
      exact ⟨rfl, hpres.2.1⟩
    · exfalso
      rw [if_neg hc] at hdel hop
      rw [get_incoming_change_update_desc_func] at hdel
      rw [get_operation_update_desc_func] at hop
      exact hc ⟨hdel, hop⟩

/-- C3: for every tree conflict with incoming delete raised by update or
switch, construction attaches the details fetcher, and the fetcher
follows the operation-and-direction procedure: a forward update calls
`get-deleted-rev(new_repos_relpath, old, new)` and records the deleted
revision and its author; a reverse update (or switch) records the start
revision of the first location segment of the node's history as
`added_rev`; a forward switch scans the log and, when the scan stopped
with the `SVN_ERR_CANCELLED` early-termination signal after finding a
matching deletion, catches it locally and uses the accumulated deleted
revision, while an unsuccessful scan returns success with details left
absent; and whenever details are present exactly one of
`deleted_rev`/`added_rev` is a valid revision. -/
theorem incoming_delete_details_procedure (oracle : ra_session_oracle)
    (c : svn_client_conflict)
    (hvalid_del : ∀ url relpath start_rev end_rev,
      0 ≤ oracle.deleted_rev_fn url relpath start_rev end_rev)
    (hvalid_seg : ∀ url relpath peg start_rev end_rev segment,
      segment ∈ oracle.location_segments_fn url relpath peg start_rev
          end_rev → 0 ≤ segment.range_start)
    (hvalid_log : ∀ url relpath start_rev end_rev log_entry,
      log_entry ∈ oracle.log_entries_fn url relpath start_rev end_rev →
      0 ≤ log_entry.revision)
    (htree : conflict_tree_conflicted c = true)
    (hfunc : c.tree_conflict_get_details_func = some .incoming_delete)
    (hdet0 : c.tree_conflict_details = none) :
    (∀ local_abspath descs,
      conflict_tree_conflicted
          (conflict_get_internal local_abspath descs) = true →
      svn_client_conflict_get_incoming_change
          (conflict_get_internal local_abspath descs) = .delete →
      (svn_client_conflict_get_operation
            (conflict_get_internal local_abspath descs) = .update ∨
       svn_client_conflict_get_operation
            (conflict_get_internal local_abspath descs) = .switch) →
      (conflict_get_internal local_abspath
          descs).tree_conflict_get_details_func = some .incoming_delete) ∧
    (svn_client_conflict_get_operation c = .update →
      conflict_old_rev c < conflict_new_rev c →
      svn_client_conflict_tree_get_details oracle c =
        ⟨none,
          { c with tree_conflict_details := some {
                deleted_rev := oracle.deleted_rev_fn
                  (svn_path_url_add_component2 (conflict_repos_root_url c)
                    (conflict_new_repos_relpath c)) ""
                  (conflict_old_rev c) (conflict_new_rev c)
                added_rev := SVN_INVALID_REVNUM
                repos_relpath := conflict_new_repos_relpath c
                rev_author := oracle.rev_author (oracle.deleted_rev_fn
                  (svn_path_url_add_component2 (conflict_repos_root_url c)
                    (conflict_new_repos_relpath c)) ""
                  (conflict_old_rev c) (conflict_new_rev c)) } },
          [.open_ra_session
              (svn_path_url_add_component2 (conflict_repos_root_url c)
                (conflict_new_repos_relpath c)),
           .get_deleted_rev "" (conflict_old_rev c) (conflict_new_rev c),
           .rev_prop (oracle.deleted_rev_fn
              (svn_path_url_add_component2 (conflict_repos_root_url c)
                (conflict_new_repos_relpath c)) ""
              (conflict_old_rev c) (conflict_new_rev c))]⟩) ∧
    (svn_client_conflict_get_operation c = .update →
      ¬ conflict_old_rev c < conflict_new_rev c →
      svn_client_conflict_tree_get_details oracle c =
        ⟨none,
          { c with tree_conflict_details := some {
                deleted_rev := SVN_INVALID_REVNUM
                added_rev := first_history_added_rev
                  (oracle.location_segments_fn
                    (svn_path_url_add_component2
                      (conflict_repos_root_url c)
                      (conflict_old_repos_relpath c)) ""
                    (conflict_old_rev c) (conflict_old_rev c)
                    (conflict_new_rev c))
                repos_relpath := conflict_new_repos_relpath c
                rev_author := oracle.rev_author (first_history_added_rev
                  (oracle.location_segments_fn
                    (svn_path_url_add_component2
                      (conflict_repos_root_url c)
                      (conflict_old_repos_relpath c)) ""
                    (conflict_old_rev c) (conflict_old_rev c)
                    (conflict_new_rev c))) } },
          [.open_ra_session
              (svn_path_url_add_component2 (conflict_repos_root_url c)
                (conflict_old_repos_relpath c)),
           .get_location_segments "" (conflict_old_rev c)
              (conflict_old_rev c) (conflict_new_rev c),
           .rev_prop (first_history_added_rev
              (oracle.location_segments_fn
                (svn_path_url_add_component2 (conflict_repos_root_url c)
                  (conflict_old_repos_relpath c)) ""
                (conflict_old_rev c) (conflict_old_rev c)
                (conflict_new_rev c)))]⟩) ∧
    (svn_client_conflict_get_operation c = .switch →
      conflict_old_rev c < conflict_new_rev c →
      run_find_deleted_rev oracle
          { deleted_repos_relpath := conflict_new_repos_relpath c
            related_repos_relpath := conflict_old_repos_relpath c
            related_repos_peg_rev := conflict_old_rev c
            deleted_rev := SVN_INVALID_REVNUM }
          (oracle.log_entries_fn
            (svn_path_url_add_component2 (conflict_repos_root_url c)
              (svn_relpath_dirname (conflict_new_repos_relpath c))) ""
            (conflict_new_rev c) 0) =
        ({ deleted_repos_relpath := conflict_new_repos_relpath c
           related_repos_relpath := conflict_old_repos_relpath c
           related_repos_peg_rev := conflict_old_rev c
           deleted_rev := SVN_INVALID_REVNUM }, none) →
      svn_client_conflict_tree_get_details oracle c =
        ⟨none, c,
          [.open_ra_session
              (svn_path_url_add_component2 (conflict_repos_root_url c)
                (svn_relpath_dirname (conflict_new_repos_relpath c))),
           .get_log "" (conflict_new_rev c) 0]⟩) ∧
    (svn_client_conflict_get_operation c = .switch →
      conflict_old_rev c < conflict_new_rev c →
      ∀ log_entry ∈
          oracle.log_entries_fn
            (svn_path_url_add_component2 (conflict_repos_root_url c)
              (svn_relpath_dirname (conflict_new_repos_relpath c))) ""
            (conflict_new_rev c) 0,
        run_find_deleted_rev oracle
            { deleted_repos_relpath := conflict_new_repos_relpath c
              related_repos_relpath := conflict_old_repos_relpath c
              related_repos_peg_rev := conflict_old_rev c
              deleted_rev := SVN_INVALID_REVNUM }
            (oracle.log_entries_fn
              (svn_path_url_add_component2 (conflict_repos_root_url c)
                (svn_relpath_dirname (conflict_new_repos_relpath c))) ""
              (conflict_new_rev c) 0) =
          ({ deleted_repos_relpath := conflict_new_repos_relpath c
             related_repos_relpath := conflict_old_repos_relpath c
             related_repos_peg_rev := conflict_old_rev c
             deleted_rev := log_entry.revision }, some .cancelled) →
        svn_client_conflict_tree_get_details oracle c =
          ⟨none,
            { c with tree_conflict_details := some {
                  deleted_rev := log_entry.revision
                  added_rev := SVN_INVALID_REVNUM
                  repos_relpath := conflict_new_repos_relpath c
                  rev_author := oracle.rev_author log_entry.revision } },
            [.open_ra_session
                (svn_path_url_add_component2 (conflict_repos_root_url c)
                  (svn_relpath_dirname (conflict_new_repos_relpath c))),
             .get_log "" (conflict_new_rev c) 0,
             .rev_prop log_entry.revision]⟩) ∧
    (svn_client_conflict_get_operation c = .switch →
      ¬ conflict_old_rev c < conflict_new_rev c →
      svn_client_conflict_tree_get_details oracle c =
        ⟨none,
          { c with tree_conflict_details := some {
                deleted_rev := SVN_INVALID_REVNUM
                added_rev := first_history_added_rev
                  (oracle.location_segments_fn
                    (svn_path_url_add_component2
                      (conflict_repos_root_url c)
                      (conflict_old_repos_relpath c)) ""
                    (conflict_old_rev c) (conflict_old_rev c)
                    (conflict_new_rev c))
                repos_relpath := conflict_new_repos_relpath c
                rev_author := oracle.rev_author (first_history_added_rev
                  (oracle.location_segments_fn
                    (svn_path_url_add_component2
                      (conflict_repos_root_url c)
                      (conflict_old_repos_relpath c)) ""
                    (conflict_old_rev c) (conflict_old_rev c)
                    (conflict_new_rev c))) } },
          [.open_ra_session
              (svn_path_url_add_component2 (conflict_repos_root_url c)
                (conflict_old_repos_relpath c)),
           .get_location_segments "" (conflict_old_rev c)
              (conflict_old_rev c) (conflict_new_rev c),
           .rev_prop (first_history_added_rev
              (oracle.location_segments_fn
                (svn_path_url_add_component2 (conflict_repos_root_url c)
                  (conflict_old_repos_relpath c)) ""
                (conflict_old_rev c) (conflict_old_rev c)
                (conflict_new_rev c)))]⟩) ∧
    (∀ d, (svn_client_conflict_tree_get_details
          oracle c).conflict.tree_conflict_details = some d →
      (SVN_IS_VALID_REVNUM d.deleted_rev ∧
        ¬ SVN_IS_VALID_REVNUM d.added_rev) ∨
      (¬ SVN_IS_VALID_REVNUM d.deleted_rev ∧
        SVN_IS_VALID_REVNUM d.added_rev)) := by
  have hres : svn_client_conflict_tree_get_details oracle c =
      conflict_tree_get_details_incoming_delete oracle c := by
    unfold svn_client_conflict_tree_get_details
    simp only [assert_tree_conflict, htree, if_true]
    rw [hfunc]
  rw [hres]
  refine ⟨?_, ?_, ?_, ?_, ?_, ?_, ?_⟩
  · intro local_abspath descs h1 h2 h3
    exact (construction_attaches_incoming_delete_fetcher local_abspath descs
      h1 h2 h3).1
  · intro hop hdir
    unfold conflict_tree_get_details_incoming_delete
    dsimp only
    rw [if_pos hop, if_pos hdir]
  · intro hop hdir
    unfold conflict_tree_get_details_incoming_delete
    dsimp only
    rw [if_pos hop, if_neg hdir]
    rw [run_find_added_rev_pcalloc]
  · intro hop hdir hrun
    unfold conflict_tree_get_details_incoming_delete
    dsimp only
    have hnupd : ¬ svn_client_conflict_get_operation c = .update := by
      rw [hop]; decide
    rw [if_neg hnupd, if_pos hop, if_pos hdir, hrun]
    dsimp only
    rw [if_pos rfl]
  · intro hop hdir log_entry hmem hrun
    unfold conflict_tree_get_details_incoming_delete
    dsimp only
    have hnupd : ¬ svn_client_conflict_get_operation c = .update := by
      rw [hop]; decide
    rw [if_neg hnupd, if_pos hop, if_pos hdir, hrun]
    dsimp only
    have hne : ¬ (log_entry.revision = SVN_INVALID_REVNUM) := by
      have := hvalid_log _ _ _ _ log_entry hmem
      unfold SVN_INVALID_REVNUM
      omega
    rw [if_pos ⟨rfl, hne⟩]
    rfl
  · intro hop hdir
    unfold conflict_tree_get_details_incoming_delete
    dsimp only
    have hnupd : ¬ svn_client_conflict_get_operation c = .update := by
      rw [hop]; decide
    rw [if_neg hnupd, if_pos hop, if_neg hdir]
    rw [run_find_added_rev_pcalloc]
  · intro d hd
    unfold conflict_tree_get_details_incoming_delete at hd
    dsimp only at hd
    cases hopv : svn_client_conflict_get_operation c with
    | update =>
      rw [if_pos hopv] at hd
      by_cases hdir : conflict_old_rev c < conflict_new_rev c
      · rw [if_pos hdir] at hd
        simp only [Option.some.injEq] at hd
        subst hd
        left
        exact ⟨hvalid_del _ _ _ _,
          (by decide : ¬ SVN_IS_VALID_REVNUM SVN_INVALID_REVNUM)⟩
      · rw [if_neg hdir] at hd
        rw [run_find_added_rev_pcalloc] at hd
        simp only [Option.some.injEq] at hd
        subst hd
        right
        refine ⟨(by decide : ¬ SVN_IS_VALID_REVNUM SVN_INVALID_REVNUM), ?_⟩
        exact first_history_added_rev_nonneg _
          (fun segment hseg => hvalid_seg _ _ _ _ _ segment hseg)
    | switch =>
      have hnupd : ¬ svn_client_conflict_get_operation c = .update := by
        rw [hopv]; decide
      rw [if_neg hnupd, if_pos hopv] at hd
      by_cases hdir : conflict_old_rev c < conflict_new_rev c
      · rw [if_pos hdir] at hd
        rcases run_find_deleted_rev_cases oracle
            { deleted_repos_relpath := conflict_new_repos_relpath c
              related_repos_relpath := conflict_old_repos_relpath c
              related_repos_peg_rev := conflict_old_rev c
              deleted_rev := SVN_INVALID_REVNUM }
            (oracle.log_entries_fn
              (svn_path_url_add_component2 (conflict_repos_root_url c)
                (svn_relpath_dirname (conflict_new_repos_relpath c))) ""
              (conflict_new_rev c) 0) with hrun | hrun
        · rw [hrun] at hd
          dsimp only at hd
          rw [if_pos rfl] at hd
          rw [hdet0] at hd
          cases hd
        · obtain ⟨log_entry, hmem, hrun⟩ := hrun
          rw [hrun] at hd
          dsimp only at hd
          have hne : ¬ (log_entry.revision = SVN_INVALID_REVNUM) := by
            have := hvalid_log _ _ _ _ log_entry hmem
            unfold SVN_INVALID_REVNUM
            omega
          rw [if_pos ⟨rfl, hne⟩] at hd
          simp only [Option.some.injEq] at hd
          subst hd
          left
          refine ⟨?_,
            (by decide : ¬ SVN_IS_VALID_REVNUM SVN_INVALID_REVNUM)⟩
          exact hvalid_log _ _ _ _ log_entry hmem
      · rw [if_neg hdir] at hd
        rw [run_find_added_rev_pcalloc] at hd
        simp only [Option.some.injEq] at hd
        subst hd
        right
        refine ⟨(by decide : ¬ SVN_IS_VALID_REVNUM SVN_INVALID_REVNUM), ?_⟩
        exact first_history_added_rev_nonneg _
          (fun segment hseg => hvalid_seg _ _ _ _ _ segment hseg)
    | merge =>
      have hnupd : ¬ svn_client_conflict_get_operation c = .update := by
        rw [hopv]; decide
      have hnsw : ¬ svn_client_conflict_get_operation c = .switch := by
        rw [hopv]; decide
      rw [if_neg hnupd, if_neg hnsw] at hd
      rw [hdet0] at hd
      cases hd
    | none =>
      have hnupd : ¬ svn_client_conflict_get_operation c = .update := by
        rw [hopv]; decide
      have hnsw : ¬ svn_client_conflict_get_operation c = .switch := by
        rw [hopv]; decide
      rw [if_neg hnupd, if_neg hnsw] at hd
      rw [hdet0] at hd
      cases hd

/-- A tree conflict with incoming delete raised by a forward update
(old peg 10, new peg 12; the victim is `trunk/a.txt`). -/
def fixture_incoming_delete_conflict : svn_client_conflict :=
  fixture_tree_conflict .update .delete .edited .file

/-- Witness for C3: the forward-update case at the fixture conflict and
oracle — the fetcher opens the session at the victim's new URL, calls
`get-deleted-rev("", 10, 12)` and records `deleted_rev = 12` with author
`alice`. -/
theorem incoming_delete_details_procedure_witness :
    conflict_tree_conflicted fixture_incoming_delete_conflict = true ∧
      svn_client_conflict_tree_get_details fixture_oracle
          fixture_incoming_delete_conflict =
        ⟨none,
          { fixture_incoming_delete_conflict with
              tree_conflict_details := some
                { deleted_rev := 12, added_rev := SVN_INVALID_REVNUM,
                  repos_relpath := "trunk/a.txt", rev_author := "alice" } },
          [.open_ra_session "http://host/repo/trunk/a.txt",
           .get_deleted_rev "" 10 12, .rev_prop 12]⟩ :=
  ⟨by decide,
    ((incoming_delete_details_procedure fixture_oracle
          fixture_incoming_delete_conflict
          (fun _ _ _ _ => by simp [fixture_oracle])
          (fun _ _ _ _ _ segment hmem => by
            simp only [fixture_oracle, List.mem_singleton] at hmem
            subst hmem
            decide)
          (fun _ _ _ _ log_entry hmem => by
            simp only [fixture_oracle, List.mem_singleton] at hmem
            subst hmem
            decide)
          (by decide) (by decide) (by decide)).2.1 (by decide)
        (by decide)).trans (by decide)⟩

/-- Witness for C10: a failing lock release leaves the recorded
resolution of the binary-file text conflict unchanged. -/
theorem resolution_recorded_only_after_success_witness :
    ((resolve_text_conflict
        { release_write_lock_err := some (.store_failure 7) }
        { id := .working_text, do_resolve_func := .resolve_text_conflict }
        fixture_text_conflict).err.isSome = true) ∧
      (resolve_text_conflict
          { release_write_lock_err := some (.store_failure 7) }
          { id := .working_text,
            do_resolve_func := .resolve_text_conflict }
          fixture_text_conflict).conflict = fixture_text_conflict :=
  ⟨by decide,
    (resolution_recorded_only_after_success.2.1
        { release_write_lock_err := some (.store_failure 7) }
        { id := .working_text, do_resolve_func := .resolve_text_conflict }
        fixture_text_conflict).1 (by decide)⟩

end Svn
